import Mathlib

/-!
# Verification of the rusty-renderer procedural mesh and camera core

Shallow embedding of the repository's mesh-generation code (`src/model.rs`),
resize / frame-loop logic (`src/state.rs`, `src/main.rs`) and, where a module
is referenced but absent from `src/` (`mesh.rs`, `camera.rs`, `projection.rs`),
a model built from the natural-language specification (marked
`Modelled from the spec:`).

`f32` arithmetic is embedded as exact rational arithmetic (`ℚ`); square roots
(used only by vector normalization) are embedded with `Rat.sqrt`, which is
exact on perfect squares — every normalization a theorem below depends on is
of an axis-aligned vector, whose squared magnitude is a perfect square.
-/

namespace RustyRenderer

/-- Embedding of cgmath `Vector3<f32>` with exact rational components. -/
structure Vec3 where
  x : ℚ
  y : ℚ
  z : ℚ
deriving DecidableEq, Repr

def Vec3.add (a b : Vec3) : Vec3 := ⟨a.x + b.x, a.y + b.y, a.z + b.z⟩

instance : Add Vec3 := ⟨Vec3.add⟩

def Vec3.neg (a : Vec3) : Vec3 := ⟨-a.x, -a.y, -a.z⟩

instance : Neg Vec3 := ⟨Vec3.neg⟩

def Vec3.sub (a b : Vec3) : Vec3 := ⟨a.x - b.x, a.y - b.y, a.z - b.z⟩

instance : Sub Vec3 := ⟨Vec3.sub⟩

/-- Scalar multiplication, embedding cgmath `Vector3 * f32` / `f32 * Vector3`. -/
def Vec3.smul (c : ℚ) (a : Vec3) : Vec3 := ⟨c * a.x, c * a.y, c * a.z⟩

instance : SMul ℚ Vec3 := ⟨Vec3.smul⟩

/-- cgmath `Vector3::dot`. -/
def Vec3.dot (a b : Vec3) : ℚ := a.x * b.x + a.y * b.y + a.z * b.z

/-- cgmath `Vector3::cross` (right-handed). -/
def Vec3.cross (a b : Vec3) : Vec3 :=
  ⟨a.y * b.z - a.z * b.y, a.z * b.x - a.x * b.z, a.x * b.y - a.y * b.x⟩

/-- cgmath `InnerSpace::magnitude`; `Rat.sqrt` is exact on perfect squares,
which covers every magnitude the theorems below inspect. -/
def Vec3.magnitude (a : Vec3) : ℚ := Rat.sqrt (a.dot a)

/-- cgmath `InnerSpace::normalize`: `v * (1 / v.magnitude())`. -/
def Vec3.normalize (a : Vec3) : Vec3 := (1 / a.magnitude) • a

def Vec3.unit_x : Vec3 := ⟨1, 0, 0⟩

def Vec3.unit_y : Vec3 := ⟨0, 1, 0⟩

def Vec3.unit_z : Vec3 := ⟨0, 0, 1⟩

def Vec3.zero : Vec3 := ⟨0, 0, 0⟩

theorem Vec3.add_def (a b : Vec3) : a + b = ⟨a.x + b.x, a.y + b.y, a.z + b.z⟩ := rfl

theorem Vec3.neg_def (a : Vec3) : -a = ⟨-a.x, -a.y, -a.z⟩ := rfl

theorem Vec3.sub_def (a b : Vec3) : a - b = ⟨a.x - b.x, a.y - b.y, a.z - b.z⟩ := rfl

theorem Vec3.smul_def (c : ℚ) (a : Vec3) : c • a = ⟨c * a.x, c * a.y, c * a.z⟩ := rfl

/-- A vertex accumulated by the mesh builder: position plus flat-shaded face
normal (`MeshVertex` of the absent `mesh.rs`; its color channel is not
touched by any claim and is omitted). -/
structure MeshVertex where
  position : Vec3
  normal : Vec3
deriving DecidableEq, Repr

/-- Modelled from the spec: the Mesh Builder accumulator of the absent
`mesh.rs` — name, ordered vertex sequence, ordered index sequence
(triangle list, stride 3). -/
structure MeshBuilder where
  name : String
  vertices : List MeshVertex
  indices : List Nat
deriving DecidableEq, Repr

def MeshBuilder.new (name : String) : MeshBuilder := ⟨name, [], []⟩

/-- Modelled from the spec: `add_triangle(a, b, c)` appends three vertices and
connecting indices, computing a face normal as `(b-a) × (c-a)` normalized,
assigned to all three vertices (flat shading).  `mesh.rs` is not under
`src/`. -/
def MeshBuilder.add_triangle (bl : MeshBuilder) (a b c : Vec3) : MeshBuilder :=
  let n := Vec3.normalize (Vec3.cross (b - a) (c - a))
  let base := bl.vertices.length
  { bl with
    vertices := bl.vertices ++ [⟨a, n⟩, ⟨b, n⟩, ⟨c, n⟩],
    indices := bl.indices ++ [base, base + 1, base + 2] }

/-- Modelled from the spec: `add_quad(origin, edge1, edge2)` emits the two
triangles `(origin, origin+edge1, origin+edge1+edge2)` and
`(origin, origin+edge1+edge2, origin+edge2)`.  `mesh.rs` is not under
`src/`. -/
def MeshBuilder.add_quad (bl : MeshBuilder) (origin edge1 edge2 : Vec3) : MeshBuilder :=
  (bl.add_triangle origin (origin + edge1) (origin + edge1 + edge2)).add_triangle
    origin (origin + edge1 + edge2) (origin + edge2)

/-- Modelled from the spec: `add_linked_quad(position, link, row_stride)`
always appends the current point as a new vertex at `position` (with an
unlit zero normal — the spec does not assign it one); when `link` is true it
emits two triangles connecting the current vertex (index `current`), the
west vertex (`current-1`), the south vertex (`current-row_stride`) and the
south-west vertex (`current-row_stride-1`), forming the grid cell's quad.
`mesh.rs` is not under `src/`. -/
def MeshBuilder.add_linked_quad (bl : MeshBuilder) (position : Vec3) (link : Bool)
    (row_stride : Nat) : MeshBuilder :=
  let current := bl.vertices.length
  { bl with
    vertices := bl.vertices ++ [⟨position, Vec3.zero⟩],
    indices :=
      if link then
        bl.indices ++ [current, current - 1, current - row_stride - 1,
                       current, current - row_stride - 1, current - row_stride]
      else bl.indices }

/-- A finalized mesh (`Mesh` of the absent `mesh.rs`, GPU buffer handles
dropped): the accumulated vertex and index streams. -/
structure Mesh where
  name : String
  vertices : List MeshVertex
  indices : List Nat
  num_elements : Nat
deriving DecidableEq, Repr

/-- Modelled from the spec: `build` finalizes the accumulated streams into an
immutable `Mesh` (the GPU upload is dropped from the embedding). -/
def MeshBuilder.build (bl : MeshBuilder) : Mesh :=
  ⟨bl.name, bl.vertices, bl.indices, bl.indices.length⟩

/-- The triangle list an index stream denotes: for each index triple, the
positions of the three referenced vertices. -/
def MeshBuilder.triangles (bl : MeshBuilder) : List (Vec3 × Vec3 × Vec3) :=
  (List.range (bl.indices.length / 3)).map (fun k =>
    ((bl.vertices.getD (bl.indices.getD (3 * k) 0) ⟨Vec3.zero, Vec3.zero⟩).position,
     (bl.vertices.getD (bl.indices.getD (3 * k + 1) 0) ⟨Vec3.zero, Vec3.zero⟩).position,
     (bl.vertices.getD (bl.indices.getD (3 * k + 2) 0) ⟨Vec3.zero, Vec3.zero⟩).position))

/-- The same triangle with reversed winding (last two corners swapped):
`(p, q, r)` and `(p, r, q)` denote the two orientations of one panel. -/
def revTri (t : Vec3 × Vec3 × Vec3) : Vec3 × Vec3 × Vec3 := (t.1, t.2.2, t.2.1)

/-- `ModelPrimitive` from `src/model.rs`. -/
inductive ModelPrimitive where
  | Cube
  | Plane
deriving DecidableEq, Repr

/-- `Model` from `src/model.rs` (GPU handles dropped). -/
structure Model where
  meshes : List Mesh
deriving DecidableEq, Repr

/-- `Model::add_post` from `src/model.rs`: five quads of a
width × height × length box standing on `position` — the bottom face is
never emitted. -/
def Model.add_post (builder : MeshBuilder) (position : Vec3)
    (width length height : ℚ) : MeshBuilder :=
  let up := height • Vec3.unit_y
  let right := width • Vec3.unit_x
  let forward := length • Vec3.unit_z
  let offset := (1 / 2 : ℚ) • (right + forward)
  let near_corner := position - offset
  let far_corner := up + right + forward + position - offset
  ((((builder.add_quad near_corner right up).add_quad
      near_corner up forward).add_quad
      far_corner (-right) (-forward)).add_quad
      far_corner (-up) (-right)).add_quad
      far_corner (-forward) (-up)

/-- Builder state of `Model::cube` from `src/model.rs` just before `build`. -/
def Model.cubeBuilder (size : ℚ) : MeshBuilder :=
  let builder := MeshBuilder.new "Cube"
  let up := size • Vec3.unit_y
  let right := size • Vec3.unit_x
  let forward := size • Vec3.unit_z
  let near_corner : Vec3 := ⟨-size / 2, -size / 2, -size / 2⟩
  let far_corner : Vec3 := ⟨size / 2, size / 2, size / 2⟩
  (((((builder.add_quad near_corner forward right).add_quad
      near_corner right up).add_quad
      near_corner up forward).add_quad
      far_corner (-right) (-forward)).add_quad
      far_corner (-up) (-right)).add_quad
      far_corner (-forward) (-up)

/-- `Model::cube` from `src/model.rs`. -/
def Model.cube (size : ℚ) : Model := ⟨[(Model.cubeBuilder size).build]⟩

/-- Builder state of `Model::house` from `src/model.rs` just before `build`.
Wall quads, two gable triangles, then the four roof quads (each roof side's
quad emitted twice with the two edges swapped). -/
def Model.houseBuilder (width length height : ℚ) : MeshBuilder :=
  let builder := MeshBuilder.new "House"
  let up := height • Vec3.unit_y
  let right := width • Vec3.unit_x
  let forward := length • Vec3.unit_z
  let near_corner : Vec3 := ⟨-width / 2, 0, -length / 2⟩
  let far_corner : Vec3 := ⟨width / 2, height, length / 2⟩
  let builder :=
    (((builder.add_quad near_corner right up).add_quad
        near_corner up forward).add_quad
        far_corner (-up) (-right)).add_quad
        far_corner (-forward) (-up)
  let wall_top_left := near_corner + up
  let wall_top_right := wall_top_left + right
  let roof_peak := wall_top_left + (1 / 2 : ℚ) • up + (width / 2) • right
  let builder :=
    (builder.add_triangle wall_top_left roof_peak wall_top_right).add_triangle
      (wall_top_left + forward) (wall_top_right + forward) (roof_peak + forward)
  let from_peak_left := wall_top_left - roof_peak
  let from_peak_right := wall_top_right - roof_peak
  let roof_overhang : ℚ := 2 / 10
  let from_peak_left := from_peak_left + roof_overhang • from_peak_left.normalize
  let from_peak_right := from_peak_right + roof_overhang • from_peak_right.normalize
  let roof_peak := roof_peak - roof_overhang • Vec3.unit_z
  -- Bias roof upwards for z-fighting
  let roof_peak := roof_peak + (1 / 1000 : ℚ) • Vec3.unit_y
  let forward := forward + (roof_overhang * 2) • Vec3.unit_z
  (((builder.add_quad roof_peak forward from_peak_left).add_quad
      roof_peak from_peak_left forward).add_quad
      roof_peak from_peak_right forward).add_quad
      roof_peak forward from_peak_right

/-- `Model::house` from `src/model.rs`. -/
def Model.house (width length height : ℚ) : Model :=
  ⟨[(Model.houseBuilder width length height).build]⟩

/-- Builder state of `Model::plane` from `src/model.rs` just before `build`. -/
def Model.planeBuilder (size : ℚ) : MeshBuilder :=
  (MeshBuilder.new "Plane").add_quad
    ⟨-size / 2, 0, -size / 2⟩ ⟨size, 0, 0⟩ ⟨0, 0, size⟩

/-- `Model::plane` from `src/model.rs`. -/
def Model.plane (size : ℚ) : Model := ⟨[(Model.planeBuilder size).build]⟩

/-- The `u32 → i32` cast (`count as i32` in `Model::surface`,
`src/model.rs` line 174): a `u32` value at or above `2^31` wraps around to
a negative `i32`. -/
def asI32 (n : Nat) : Int := if n < 2 ^ 31 then (n : Int) else (n : Int) - 2 ^ 32

/-- One inner-loop iteration row of `Model::surface` from `src/model.rs`:
for the outer index `ki` (so `i = ki - half_count`, `z = 2*size*i`), run
`for j in -half_count..half_count + 1` — `(2*half_count + 1).toNat`
iterations, none when `half_count` is negative (which happens for
`count ≥ 2^31` through the `u32 → i32` cast) — sampling each point's
height from the stream `heights` (the embedding of
`rng.gen_range(0.0..height_max)`: sample number `n` — one per vertex
appended so far — yields `heights n`).  The `row_stride` argument
`count + 1` is `u32` arithmetic, hence reduced mod `2^32`. -/
def Model.surfaceRow (heights : Nat → ℚ) (count : Nat) (size : ℚ) (half : Int)
    (builder : MeshBuilder) (ki : Nat) : MeshBuilder :=
  let i : Int := (ki : Int) - half
  let z : ℚ := 2 * size * (i : ℚ)
  (List.range (2 * half + 1).toNat).foldl (fun (builder : MeshBuilder) (kj : Nat) =>
    let j : Int := (kj : Int) - half
    let x : ℚ := 2 * size * (j : ℚ)
    let y : ℚ := heights builder.vertices.length
    let link : Bool := decide (-half < i) && decide (-half < j)
    builder.add_linked_quad ⟨x, y, z⟩ link ((count + 1) % 2 ^ 32)) builder

/-- Builder state of `Model::surface` from `src/model.rs` just before
`build`: `half_count = count as i32 / 2` — the `u32 → i32` cast wraps for
`count ≥ 2^31`, and Rust `i32` division truncates toward zero
(`Int.tdiv`) — and both loops run `for _ in -half_count..half_count + 1`,
i.e. `(2*half_count + 1).toNat` iterations. -/
def Model.surfaceBuilder (heights : Nat → ℚ) (count : Nat)
    (size height_max : ℚ) : MeshBuilder :=
  let half : Int := (asI32 count).tdiv 2
  (List.range (2 * half + 1).toNat).foldl
    (Model.surfaceRow heights count size half) (MeshBuilder.new "Quad Grid")

/-- `Model::surface` from `src/model.rs`, its thread rng abstracted as the
sample stream `heights`. -/
def Model.surface (heights : Nat → ℚ) (count : Nat) (size height_max : ℚ) : Model :=
  ⟨[(Model.surfaceBuilder heights count size height_max).build]⟩

/-- A vector is axis-aligned when two of its components vanish. -/
def Vec3.axisAligned (v : Vec3) : Prop :=
  (v.y = 0 ∧ v.z = 0) ∨ (v.x = 0 ∧ v.z = 0) ∨ (v.x = 0 ∧ v.y = 0)

instance (v : Vec3) : Decidable v.axisAligned :=
  inferInstanceAs (Decidable ((v.y = 0 ∧ v.z = 0) ∨ (v.x = 0 ∧ v.z = 0) ∨ (v.x = 0 ∧ v.y = 0)))

/-- Unit length, expressed on the squared magnitude (`v ⬝ v = 1` iff
`‖v‖ = 1`), which keeps the predicate free of square roots. -/
def Vec3.unitLength (v : Vec3) : Prop := v.dot v = 1

instance (v : Vec3) : Decidable v.unitLength :=
  inferInstanceAs (Decidable (v.dot v = 1))

/-- A triangle lies entirely in the horizontal plane `y = c`. -/
def triInPlaneY (t : Vec3 × Vec3 × Vec3) (c : ℚ) : Prop :=
  t.1.y = c ∧ t.2.1.y = c ∧ t.2.2.y = c

/-- The six outward axis directions, the expected distinct face normals of a
cube. -/
def axisNormals : List Vec3 :=
  [⟨0, 1, 0⟩, ⟨0, 0, 1⟩, ⟨1, 0, 0⟩, ⟨0, -1, 0⟩, ⟨0, 0, -1⟩, ⟨-1, 0, 0⟩]

section Infrastructure

theorem Vec3.eq_of (a b : Vec3) (hx : a.x = b.x) (hy : a.y = b.y) (hz : a.z = b.z) :
    a = b := by
  cases a; cases b; simp_all

theorem triEq {t s : Vec3 × Vec3 × Vec3} (h1 : t.1 = s.1) (h2 : t.2.1 = s.2.1)
    (h3 : t.2.2 = s.2.2) : t = s := by
  obtain ⟨a, b, c⟩ := t
  obtain ⟨d, e, f⟩ := s
  simp_all

theorem ratSqrt_sq {c : ℚ} (h : 0 ≤ c) : Rat.sqrt (c * c) = c := by
  rw [Rat.sqrt_eq, abs_of_nonneg h]

theorem Vec3.normalize_pos_x {c : ℚ} (h : 0 < c) :
    Vec3.normalize ⟨c, 0, 0⟩ = ⟨1, 0, 0⟩ := by
  have hd : (Vec3.dot ⟨c, 0, 0⟩ ⟨c, 0, 0⟩) = c * c := by simp only [Vec3.dot]; ring
  have hm : (Vec3.magnitude ⟨c, 0, 0⟩) = c := by rw [Vec3.magnitude, hd, ratSqrt_sq h.le]
  rw [Vec3.normalize, hm, Vec3.smul_def]
  exact Vec3.eq_of _ _ (by field_simp) (by ring) (by ring)

theorem Vec3.normalize_neg_x {c : ℚ} (h : 0 < c) :
    Vec3.normalize ⟨-c, 0, 0⟩ = ⟨-1, 0, 0⟩ := by
  have hd : (Vec3.dot ⟨-c, 0, 0⟩ ⟨-c, 0, 0⟩) = c * c := by simp only [Vec3.dot]; ring
  have hm : (Vec3.magnitude ⟨-c, 0, 0⟩) = c := by rw [Vec3.magnitude, hd, ratSqrt_sq h.le]
  rw [Vec3.normalize, hm, Vec3.smul_def]
  exact Vec3.eq_of _ _ (by field_simp) (by ring) (by ring)

theorem Vec3.normalize_pos_y {c : ℚ} (h : 0 < c) :
    Vec3.normalize ⟨0, c, 0⟩ = ⟨0, 1, 0⟩ := by
  have hd : (Vec3.dot ⟨0, c, 0⟩ ⟨0, c, 0⟩) = c * c := by simp only [Vec3.dot]; ring
  have hm : (Vec3.magnitude ⟨0, c, 0⟩) = c := by rw [Vec3.magnitude, hd, ratSqrt_sq h.le]
  rw [Vec3.normalize, hm, Vec3.smul_def]
  exact Vec3.eq_of _ _ (by ring) (by field_simp) (by ring)

theorem Vec3.normalize_neg_y {c : ℚ} (h : 0 < c) :
    Vec3.normalize ⟨0, -c, 0⟩ = ⟨0, -1, 0⟩ := by
  have hd : (Vec3.dot ⟨0, -c, 0⟩ ⟨0, -c, 0⟩) = c * c := by simp only [Vec3.dot]; ring
  have hm : (Vec3.magnitude ⟨0, -c, 0⟩) = c := by rw [Vec3.magnitude, hd, ratSqrt_sq h.le]
  rw [Vec3.normalize, hm, Vec3.smul_def]
  exact Vec3.eq_of _ _ (by ring) (by field_simp) (by ring)

theorem Vec3.normalize_pos_z {c : ℚ} (h : 0 < c) :
    Vec3.normalize ⟨0, 0, c⟩ = ⟨0, 0, 1⟩ := by
  have hd : (Vec3.dot ⟨0, 0, c⟩ ⟨0, 0, c⟩) = c * c := by simp only [Vec3.dot]; ring
  have hm : (Vec3.magnitude ⟨0, 0, c⟩) = c := by rw [Vec3.magnitude, hd, ratSqrt_sq h.le]
  rw [Vec3.normalize, hm, Vec3.smul_def]
  exact Vec3.eq_of _ _ (by ring) (by ring) (by field_simp)

theorem Vec3.normalize_neg_z {c : ℚ} (h : 0 < c) :
    Vec3.normalize ⟨0, 0, -c⟩ = ⟨0, 0, -1⟩ := by
  have hd : (Vec3.dot ⟨0, 0, -c⟩ ⟨0, 0, -c⟩) = c * c := by simp only [Vec3.dot]; ring
  have hm : (Vec3.magnitude ⟨0, 0, -c⟩) = c := by rw [Vec3.magnitude, hd, ratSqrt_sq h.le]
  rw [Vec3.normalize, hm, Vec3.smul_def]
  exact Vec3.eq_of _ _ (by ring) (by ring) (by field_simp)

/-- Builder well-formedness: every index references an existing vertex and
the index stream is a whole number of triangles. -/
def MeshBuilder.wf (bl : MeshBuilder) : Prop :=
  (∀ i ∈ bl.indices, i < bl.vertices.length) ∧ bl.indices.length % 3 = 0

instance (bl : MeshBuilder) : Decidable bl.wf :=
  inferInstanceAs (Decidable ((∀ i ∈ bl.indices, i < bl.vertices.length) ∧
    bl.indices.length % 3 = 0))

theorem wf_new (s : String) : (MeshBuilder.new s).wf := by
  constructor
  · intro i hi; simp [MeshBuilder.new] at hi
  · rfl

theorem wf_add_triangle {bl : MeshBuilder} (h : bl.wf) (a b c : Vec3) :
    (bl.add_triangle a b c).wf := by
  obtain ⟨h1, h3⟩ := h
  constructor
  · intro i hi
    simp only [MeshBuilder.add_triangle, List.mem_append, List.mem_cons,
      List.not_mem_nil, or_false, List.length_append, List.length_cons] at hi ⊢
    rcases hi with hi | rfl | rfl | rfl
    · have := h1 i hi; omega
    all_goals omega
  · simp only [MeshBuilder.add_triangle, List.length_append, List.length_cons,
      List.length_nil]
    omega

theorem wf_add_quad {bl : MeshBuilder} (h : bl.wf) (o e1 e2 : Vec3) :
    (bl.add_quad o e1 e2).wf :=
  wf_add_triangle (wf_add_triangle h _ _ _) _ _ _

theorem triangles_length (bl : MeshBuilder) :
    bl.triangles.length = bl.indices.length / 3 := by
  simp [MeshBuilder.triangles]

theorem indices_length_new (s : String) : (MeshBuilder.new s).indices.length = 0 := rfl

theorem indices_length_add_triangle (bl : MeshBuilder) (a b c : Vec3) :
    (bl.add_triangle a b c).indices.length = bl.indices.length + 3 := by
  simp [MeshBuilder.add_triangle]

theorem indices_length_add_quad (bl : MeshBuilder) (o e1 e2 : Vec3) :
    (bl.add_quad o e1 e2).indices.length = bl.indices.length + 6 := by
  rw [MeshBuilder.add_quad, indices_length_add_triangle, indices_length_add_triangle]

theorem vertices_add_triangle (bl : MeshBuilder) (a b c : Vec3) :
    (bl.add_triangle a b c).vertices = bl.vertices ++
      [⟨a, Vec3.normalize (Vec3.cross (b - a) (c - a))⟩,
       ⟨b, Vec3.normalize (Vec3.cross (b - a) (c - a))⟩,
       ⟨c, Vec3.normalize (Vec3.cross (b - a) (c - a))⟩] := rfl

theorem vertices_add_quad (bl : MeshBuilder) (o e1 e2 : Vec3) :
    (bl.add_quad o e1 e2).vertices = bl.vertices ++
      [⟨o, Vec3.normalize (Vec3.cross (o + e1 - o) (o + e1 + e2 - o))⟩,
       ⟨o + e1, Vec3.normalize (Vec3.cross (o + e1 - o) (o + e1 + e2 - o))⟩,
       ⟨o + e1 + e2, Vec3.normalize (Vec3.cross (o + e1 - o) (o + e1 + e2 - o))⟩,
       ⟨o, Vec3.normalize (Vec3.cross (o + e1 + e2 - o) (o + e2 - o))⟩,
       ⟨o + e1 + e2, Vec3.normalize (Vec3.cross (o + e1 + e2 - o) (o + e2 - o))⟩,
       ⟨o + e2, Vec3.normalize (Vec3.cross (o + e1 + e2 - o) (o + e2 - o))⟩] := by
  rw [MeshBuilder.add_quad, vertices_add_triangle, vertices_add_triangle,
    List.append_assoc]
  rfl

theorem triangles_add_triangle {bl : MeshBuilder} (h : bl.wf) (a b c : Vec3) :
    (bl.add_triangle a b c).triangles = bl.triangles ++ [(a, b, c)] := by
  obtain ⟨h1, h3⟩ := h
  have hlen : (bl.add_triangle a b c).indices.length = bl.indices.length + 3 := by
    simp [MeshBuilder.add_triangle]
  have hdiv : (bl.indices.length + 3) / 3 = bl.indices.length / 3 + 1 := by omega
  have h33 : 3 * (bl.indices.length / 3) = bl.indices.length := by omega
  rw [MeshBuilder.triangles, hlen, hdiv, List.range_succ, List.map_append]
  congr 1
  · rw [MeshBuilder.triangles]
    apply List.map_congr_left
    intro k hk
    have hk3 : 3 * k + 2 < bl.indices.length := by
      simp only [List.mem_range] at hk; omega
    have idx_eq : ∀ m, m < bl.indices.length →
        (bl.add_triangle a b c).indices.getD m 0 = bl.indices.getD m 0 := by
      intro m hm
      simp only [MeshBuilder.add_triangle]
      exact List.getD_append _ _ _ _ hm
    have vert_eq : ∀ m, m < bl.indices.length →
        (bl.add_triangle a b c).vertices.getD (bl.indices.getD m 0) ⟨Vec3.zero, Vec3.zero⟩ =
          bl.vertices.getD (bl.indices.getD m 0) ⟨Vec3.zero, Vec3.zero⟩ := by
      intro m hm
      have hmem : bl.indices.getD m 0 ∈ bl.indices := by
        rw [List.getD_eq_getElem _ _ hm]
        exact List.getElem_mem _
      have := h1 _ hmem
      simp only [MeshBuilder.add_triangle]
      exact List.getD_append _ _ _ _ this
    rw [idx_eq _ (by omega), idx_eq _ (by omega), idx_eq _ (by omega),
      vert_eq _ (by omega), vert_eq _ (by omega), vert_eq _ (by omega)]
  · simp only [List.map_cons, List.map_nil]
    have hidx : ∀ j : Nat, j < 3 → (bl.add_triangle a b c).indices.getD
        (3 * (bl.indices.length / 3) + j) 0 = bl.vertices.length + j := by
      intro j hj
      simp only [MeshBuilder.add_triangle]
      rw [h33, List.getD_append_right _ _ _ _ (by omega)]
      have : bl.indices.length + j - bl.indices.length = j := by omega
      rw [this]
      interval_cases j <;> rfl
    have hvert : ∀ j : Nat, j < 3 → (bl.add_triangle a b c).vertices.getD
        (bl.vertices.length + j) ⟨Vec3.zero, Vec3.zero⟩ =
        ([⟨a, Vec3.normalize (Vec3.cross (b - a) (c - a))⟩,
          ⟨b, Vec3.normalize (Vec3.cross (b - a) (c - a))⟩,
          ⟨c, Vec3.normalize (Vec3.cross (b - a) (c - a))⟩] : List MeshVertex).getD j
          ⟨Vec3.zero, Vec3.zero⟩ := by
      intro j hj
      simp only [MeshBuilder.add_triangle]
      rw [List.getD_append_right _ _ _ _ (by omega)]
      congr 1
      omega
    have hidx0 : (bl.add_triangle a b c).indices.getD (3 * (bl.indices.length / 3)) 0 =
        bl.vertices.length := by simpa using hidx 0 (by omega)
    have hvert0 : (bl.add_triangle a b c).vertices.getD bl.vertices.length
        ⟨Vec3.zero, Vec3.zero⟩ =
        (⟨a, Vec3.normalize (Vec3.cross (b - a) (c - a))⟩ : MeshVertex) := by
      simpa using hvert 0 (by omega)
    rw [hidx0, hidx 1 (by omega), hidx 2 (by omega)]
    rw [hvert0, hvert 1 (by omega), hvert 2 (by omega)]
    rfl

theorem triangles_add_quad {bl : MeshBuilder} (h : bl.wf) (o e1 e2 : Vec3) :
    (bl.add_quad o e1 e2).triangles = bl.triangles ++
      [(o, o + e1, o + e1 + e2), (o, o + e1 + e2, o + e2)] := by
  rw [MeshBuilder.add_quad, triangles_add_triangle (wf_add_triangle h _ _ _),
    triangles_add_triangle h, List.append_assoc]
  rfl

theorem triangles_new (s : String) : (MeshBuilder.new s).triangles = [] := by
  simp [MeshBuilder.triangles, MeshBuilder.new]

end Infrastructure


section PlaneClaim

/-- Shared helper: every vertex of the plane quad carries the face normal
`(0, -1, 0)` — `edge1 × edge2 = (size,0,0) × (0,0,size) = (0, -size², 0)`. -/
theorem plane_normals_helper (S : ℚ) (hS : 0 < S) :
    ∀ v ∈ (Model.planeBuilder S).vertices, v.normal = ⟨0, -1, 0⟩ := by
  intro v hv
  simp only [Model.planeBuilder, MeshBuilder.add_quad, MeshBuilder.add_triangle,
    MeshBuilder.new, List.append_assoc, List.nil_append, List.cons_append,
    List.mem_cons, List.mem_append, List.not_mem_nil, or_false] at hv
  have key : ∀ A B : Vec3, Vec3.cross A B = ⟨0, -(S * S), 0⟩ →
      Vec3.normalize (Vec3.cross A B) = ⟨0, -1, 0⟩ := by
    intro A B hAB
    rw [hAB]
    exact Vec3.normalize_neg_y (mul_pos hS hS)
  rcases hv with rfl | rfl | rfl | rfl | rfl | rfl <;>
    refine key _ _ (Vec3.eq_of _ _ ?_ ?_ ?_) <;>
    simp only [Vec3.cross, Vec3.add_def, Vec3.sub_def, Vec3.neg_def, Vec3.smul_def, Vec3.unit_x, Vec3.unit_y, Vec3.unit_z] <;> ring

end PlaneClaim

section CubeClaim

set_option maxHeartbeats 2000000 in
/-- Shared helper: every emitted cube vertex position lies at a corner
`(±S/2, ±S/2, ±S/2)`. -/
theorem cube_corners_helper (S : ℚ) :
    ∀ v ∈ (Model.cubeBuilder S).vertices,
      (v.position.x = S / 2 ∨ v.position.x = -S / 2) ∧
      (v.position.y = S / 2 ∨ v.position.y = -S / 2) ∧
      (v.position.z = S / 2 ∨ v.position.z = -S / 2) := by
  intro v hv
  simp only [Model.cubeBuilder, vertices_add_quad, MeshBuilder.new,
    List.nil_append, List.append_assoc, List.cons_append, List.mem_cons,
    List.not_mem_nil, or_false] at hv
  rcases hv with rfl | rfl | rfl | rfl | rfl | rfl | rfl | rfl | rfl | rfl | rfl | rfl | rfl | rfl | rfl | rfl | rfl | rfl | rfl | rfl | rfl | rfl | rfl | rfl | rfl | rfl | rfl | rfl | rfl | rfl | rfl | rfl | rfl | rfl | rfl | rfl
  all_goals refine ⟨?_, ?_, ?_⟩ <;>
    simp only [Vec3.add_def, Vec3.sub_def, Vec3.neg_def, Vec3.smul_def, Vec3.unit_x, Vec3.unit_y, Vec3.unit_z] <;>
    first
    | tauto
    | (left; ring1)
    | (right; ring1)

set_option maxHeartbeats 2000000 in
/-- Shared helper: the emitted cube position multiset is symmetric about the
origin. -/
theorem cube_symmetry_helper (S : ℚ) :
    ∀ v ∈ (Model.cubeBuilder S).vertices,
      -v.position ∈ (Model.cubeBuilder S).vertices.map (fun u => u.position) := by
  intro v hv
  simp only [Model.cubeBuilder, vertices_add_quad, MeshBuilder.new,
    List.nil_append, List.append_assoc, List.cons_append, List.map_cons,
    List.map_append, List.map_nil, List.mem_cons, List.not_mem_nil, or_false] at hv ⊢
  rcases hv with rfl | rfl | rfl | rfl | rfl | rfl | rfl | rfl | rfl | rfl | rfl | rfl | rfl | rfl | rfl | rfl | rfl | rfl | rfl | rfl | rfl | rfl | rfl | rfl | rfl | rfl | rfl | rfl | rfl | rfl | rfl | rfl | rfl | rfl | rfl | rfl
  · exact Or.inr (Or.inr (Or.inr (Or.inr (Or.inr (Or.inr (Or.inr (Or.inr (Or.inr (Or.inr (Or.inr (Or.inr (Or.inr (Or.inr (Or.inr (Or.inr (Or.inr (Or.inr (Or.inl (Vec3.eq_of _ _ (by simp only [Vec3.add_def, Vec3.sub_def, Vec3.neg_def, Vec3.smul_def, Vec3.unit_x, Vec3.unit_y, Vec3.unit_z]; ring) (by simp only [Vec3.add_def, Vec3.sub_def, Vec3.neg_def, Vec3.smul_def, Vec3.unit_x, Vec3.unit_y, Vec3.unit_z]; ring) (by simp only [Vec3.add_def, Vec3.sub_def, Vec3.neg_def, Vec3.smul_def, Vec3.unit_x, Vec3.unit_y, Vec3.unit_z]; ring))))))))))))))))))))
  · exact Or.inr (Or.inr (Or.inr (Or.inr (Or.inr (Or.inr (Or.inr (Or.inr (Or.inr (Or.inr (Or.inr (Or.inr (Or.inr (Or.inr (Or.inr (Or.inr (Or.inr (Or.inr (Or.inr (Or.inr (Or.inr (Or.inr (Or.inr (Or.inl (Vec3.eq_of _ _ (by simp only [Vec3.add_def, Vec3.sub_def, Vec3.neg_def, Vec3.smul_def, Vec3.unit_x, Vec3.unit_y, Vec3.unit_z]; ring) (by simp only [Vec3.add_def, Vec3.sub_def, Vec3.neg_def, Vec3.smul_def, Vec3.unit_x, Vec3.unit_y, Vec3.unit_z]; ring) (by simp only [Vec3.add_def, Vec3.sub_def, Vec3.neg_def, Vec3.smul_def, Vec3.unit_x, Vec3.unit_y, Vec3.unit_z]; ring)))))))))))))))))))))))))
  · exact Or.inr (Or.inr (Or.inr (Or.inr (Or.inr (Or.inr (Or.inr (Or.inr (Or.inr (Or.inr (Or.inr (Or.inr (Or.inr (Or.inr (Or.inr (Or.inr (Or.inr (Or.inr (Or.inr (Or.inr (Or.inl (Vec3.eq_of _ _ (by simp only [Vec3.add_def, Vec3.sub_def, Vec3.neg_def, Vec3.smul_def, Vec3.unit_x, Vec3.unit_y, Vec3.unit_z]; ring) (by simp only [Vec3.add_def, Vec3.sub_def, Vec3.neg_def, Vec3.smul_def, Vec3.unit_x, Vec3.unit_y, Vec3.unit_z]; ring) (by simp only [Vec3.add_def, Vec3.sub_def, Vec3.neg_def, Vec3.smul_def, Vec3.unit_x, Vec3.unit_y, Vec3.unit_z]; ring))))))))))))))))))))))
  · exact Or.inr (Or.inr (Or.inr (Or.inr (Or.inr (Or.inr (Or.inr (Or.inr (Or.inr (Or.inr (Or.inr (Or.inr (Or.inr (Or.inr (Or.inr (Or.inr (Or.inr (Or.inr (Or.inl (Vec3.eq_of _ _ (by simp only [Vec3.add_def, Vec3.sub_def, Vec3.neg_def, Vec3.smul_def, Vec3.unit_x, Vec3.unit_y, Vec3.unit_z]; ring) (by simp only [Vec3.add_def, Vec3.sub_def, Vec3.neg_def, Vec3.smul_def, Vec3.unit_x, Vec3.unit_y, Vec3.unit_z]; ring) (by simp only [Vec3.add_def, Vec3.sub_def, Vec3.neg_def, Vec3.smul_def, Vec3.unit_x, Vec3.unit_y, Vec3.unit_z]; ring))))))))))))))))))))
  · exact Or.inr (Or.inr (Or.inr (Or.inr (Or.inr (Or.inr (Or.inr (Or.inr (Or.inr (Or.inr (Or.inr (Or.inr (Or.inr (Or.inr (Or.inr (Or.inr (Or.inr (Or.inr (Or.inr (Or.inr (Or.inl (Vec3.eq_of _ _ (by simp only [Vec3.add_def, Vec3.sub_def, Vec3.neg_def, Vec3.smul_def, Vec3.unit_x, Vec3.unit_y, Vec3.unit_z]; ring) (by simp only [Vec3.add_def, Vec3.sub_def, Vec3.neg_def, Vec3.smul_def, Vec3.unit_x, Vec3.unit_y, Vec3.unit_z]; ring) (by simp only [Vec3.add_def, Vec3.sub_def, Vec3.neg_def, Vec3.smul_def, Vec3.unit_x, Vec3.unit_y, Vec3.unit_z]; ring))))))))))))))))))))))
  · exact Or.inr (Or.inr (Or.inr (Or.inr (Or.inr (Or.inr (Or.inr (Or.inr (Or.inr (Or.inr (Or.inr (Or.inr (Or.inr (Or.inr (Or.inr (Or.inr (Or.inr (Or.inr (Or.inr (Or.inl (Vec3.eq_of _ _ (by simp only [Vec3.add_def, Vec3.sub_def, Vec3.neg_def, Vec3.smul_def, Vec3.unit_x, Vec3.unit_y, Vec3.unit_z]; ring) (by simp only [Vec3.add_def, Vec3.sub_def, Vec3.neg_def, Vec3.smul_def, Vec3.unit_x, Vec3.unit_y, Vec3.unit_z]; ring) (by simp only [Vec3.add_def, Vec3.sub_def, Vec3.neg_def, Vec3.smul_def, Vec3.unit_x, Vec3.unit_y, Vec3.unit_z]; ring)))))))))))))))))))))
  · exact Or.inr (Or.inr (Or.inr (Or.inr (Or.inr (Or.inr (Or.inr (Or.inr (Or.inr (Or.inr (Or.inr (Or.inr (Or.inr (Or.inr (Or.inr (Or.inr (Or.inr (Or.inr (Or.inr (Or.inr (Or.inr (Or.inr (Or.inr (Or.inr (Or.inl (Vec3.eq_of _ _ (by simp only [Vec3.add_def, Vec3.sub_def, Vec3.neg_def, Vec3.smul_def, Vec3.unit_x, Vec3.unit_y, Vec3.unit_z]; ring) (by simp only [Vec3.add_def, Vec3.sub_def, Vec3.neg_def, Vec3.smul_def, Vec3.unit_x, Vec3.unit_y, Vec3.unit_z]; ring) (by simp only [Vec3.add_def, Vec3.sub_def, Vec3.neg_def, Vec3.smul_def, Vec3.unit_x, Vec3.unit_y, Vec3.unit_z]; ring))))))))))))))))))))))))))
  · exact Or.inr (Or.inr (Or.inr (Or.inr (Or.inr (Or.inr (Or.inr (Or.inr (Or.inr (Or.inr (Or.inr (Or.inr (Or.inr (Or.inr (Or.inr (Or.inr (Or.inr (Or.inr (Or.inr (Or.inr (Or.inr (Or.inr (Or.inr (Or.inr (Or.inr (Or.inr (Or.inr (Or.inr (Or.inr (Or.inl (Vec3.eq_of _ _ (by simp only [Vec3.add_def, Vec3.sub_def, Vec3.neg_def, Vec3.smul_def, Vec3.unit_x, Vec3.unit_y, Vec3.unit_z]; ring) (by simp only [Vec3.add_def, Vec3.sub_def, Vec3.neg_def, Vec3.smul_def, Vec3.unit_x, Vec3.unit_y, Vec3.unit_z]; ring) (by simp only [Vec3.add_def, Vec3.sub_def, Vec3.neg_def, Vec3.smul_def, Vec3.unit_x, Vec3.unit_y, Vec3.unit_z]; ring)))))))))))))))))))))))))))))))
  · exact Or.inr (Or.inr (Or.inr (Or.inr (Or.inr (Or.inr (Or.inr (Or.inr (Or.inr (Or.inr (Or.inr (Or.inr (Or.inr (Or.inr (Or.inr (Or.inr (Or.inr (Or.inr (Or.inr (Or.inr (Or.inr (Or.inr (Or.inr (Or.inr (Or.inr (Or.inr (Or.inl (Vec3.eq_of _ _ (by simp only [Vec3.add_def, Vec3.sub_def, Vec3.neg_def, Vec3.smul_def, Vec3.unit_x, Vec3.unit_y, Vec3.unit_z]; ring) (by simp only [Vec3.add_def, Vec3.sub_def, Vec3.neg_def, Vec3.smul_def, Vec3.unit_x, Vec3.unit_y, Vec3.unit_z]; ring) (by simp only [Vec3.add_def, Vec3.sub_def, Vec3.neg_def, Vec3.smul_def, Vec3.unit_x, Vec3.unit_y, Vec3.unit_z]; ring))))))))))))))))))))))))))))
  · exact Or.inr (Or.inr (Or.inr (Or.inr (Or.inr (Or.inr (Or.inr (Or.inr (Or.inr (Or.inr (Or.inr (Or.inr (Or.inr (Or.inr (Or.inr (Or.inr (Or.inr (Or.inr (Or.inr (Or.inr (Or.inr (Or.inr (Or.inr (Or.inr (Or.inl (Vec3.eq_of _ _ (by simp only [Vec3.add_def, Vec3.sub_def, Vec3.neg_def, Vec3.smul_def, Vec3.unit_x, Vec3.unit_y, Vec3.unit_z]; ring) (by simp only [Vec3.add_def, Vec3.sub_def, Vec3.neg_def, Vec3.smul_def, Vec3.unit_x, Vec3.unit_y, Vec3.unit_z]; ring) (by simp only [Vec3.add_def, Vec3.sub_def, Vec3.neg_def, Vec3.smul_def, Vec3.unit_x, Vec3.unit_y, Vec3.unit_z]; ring))))))))))))))))))))))))))
  · exact Or.inr (Or.inr (Or.inr (Or.inr (Or.inr (Or.inr (Or.inr (Or.inr (Or.inr (Or.inr (Or.inr (Or.inr (Or.inr (Or.inr (Or.inr (Or.inr (Or.inr (Or.inr (Or.inr (Or.inr (Or.inr (Or.inr (Or.inr (Or.inr (Or.inr (Or.inr (Or.inl (Vec3.eq_of _ _ (by simp only [Vec3.add_def, Vec3.sub_def, Vec3.neg_def, Vec3.smul_def, Vec3.unit_x, Vec3.unit_y, Vec3.unit_z]; ring) (by simp only [Vec3.add_def, Vec3.sub_def, Vec3.neg_def, Vec3.smul_def, Vec3.unit_x, Vec3.unit_y, Vec3.unit_z]; ring) (by simp only [Vec3.add_def, Vec3.sub_def, Vec3.neg_def, Vec3.smul_def, Vec3.unit_x, Vec3.unit_y, Vec3.unit_z]; ring))))))))))))))))))))))))))))
  · exact Or.inr (Or.inr (Or.inr (Or.inr (Or.inr (Or.inr (Or.inr (Or.inr (Or.inr (Or.inr (Or.inr (Or.inr (Or.inr (Or.inr (Or.inr (Or.inr (Or.inr (Or.inr (Or.inr (Or.inr (Or.inr (Or.inr (Or.inr (Or.inr (Or.inr (Or.inl (Vec3.eq_of _ _ (by simp only [Vec3.add_def, Vec3.sub_def, Vec3.neg_def, Vec3.smul_def, Vec3.unit_x, Vec3.unit_y, Vec3.unit_z]; ring) (by simp only [Vec3.add_def, Vec3.sub_def, Vec3.neg_def, Vec3.smul_def, Vec3.unit_x, Vec3.unit_y, Vec3.unit_z]; ring) (by simp only [Vec3.add_def, Vec3.sub_def, Vec3.neg_def, Vec3.smul_def, Vec3.unit_x, Vec3.unit_y, Vec3.unit_z]; ring)))))))))))))))))))))))))))
  · exact Or.inr (Or.inr (Or.inr (Or.inr (Or.inr (Or.inr (Or.inr (Or.inr (Or.inr (Or.inr (Or.inr (Or.inr (Or.inr (Or.inr (Or.inr (Or.inr (Or.inr (Or.inr (Or.inr (Or.inr (Or.inr (Or.inr (Or.inr (Or.inr (Or.inr (Or.inr (Or.inr (Or.inr (Or.inr (Or.inr (Or.inl (Vec3.eq_of _ _ (by simp only [Vec3.add_def, Vec3.sub_def, Vec3.neg_def, Vec3.smul_def, Vec3.unit_x, Vec3.unit_y, Vec3.unit_z]; ring) (by simp only [Vec3.add_def, Vec3.sub_def, Vec3.neg_def, Vec3.smul_def, Vec3.unit_x, Vec3.unit_y, Vec3.unit_z]; ring) (by simp only [Vec3.add_def, Vec3.sub_def, Vec3.neg_def, Vec3.smul_def, Vec3.unit_x, Vec3.unit_y, Vec3.unit_z]; ring))))))))))))))))))))))))))))))))
  · exact Or.inr (Or.inr (Or.inr (Or.inr (Or.inr (Or.inr (Or.inr (Or.inr (Or.inr (Or.inr (Or.inr (Or.inr (Or.inr (Or.inr (Or.inr (Or.inr (Or.inr (Or.inr (Or.inr (Or.inr (Or.inr (Or.inr (Or.inr (Or.inr (Or.inr (Or.inr (Or.inr (Or.inr (Or.inr (Or.inr (Or.inr (Or.inr (Or.inr (Or.inr (Or.inr ((Vec3.eq_of _ _ (by simp only [Vec3.add_def, Vec3.sub_def, Vec3.neg_def, Vec3.smul_def, Vec3.unit_x, Vec3.unit_y, Vec3.unit_z]; ring) (by simp only [Vec3.add_def, Vec3.sub_def, Vec3.neg_def, Vec3.smul_def, Vec3.unit_x, Vec3.unit_y, Vec3.unit_z]; ring) (by simp only [Vec3.add_def, Vec3.sub_def, Vec3.neg_def, Vec3.smul_def, Vec3.unit_x, Vec3.unit_y, Vec3.unit_z]; ring)))))))))))))))))))))))))))))))))))))
  · exact Or.inr (Or.inr (Or.inr (Or.inr (Or.inr (Or.inr (Or.inr (Or.inr (Or.inr (Or.inr (Or.inr (Or.inr (Or.inr (Or.inr (Or.inr (Or.inr (Or.inr (Or.inr (Or.inr (Or.inr (Or.inr (Or.inr (Or.inr (Or.inr (Or.inr (Or.inr (Or.inr (Or.inr (Or.inr (Or.inr (Or.inr (Or.inr (Or.inl (Vec3.eq_of _ _ (by simp only [Vec3.add_def, Vec3.sub_def, Vec3.neg_def, Vec3.smul_def, Vec3.unit_x, Vec3.unit_y, Vec3.unit_z]; ring) (by simp only [Vec3.add_def, Vec3.sub_def, Vec3.neg_def, Vec3.smul_def, Vec3.unit_x, Vec3.unit_y, Vec3.unit_z]; ring) (by simp only [Vec3.add_def, Vec3.sub_def, Vec3.neg_def, Vec3.smul_def, Vec3.unit_x, Vec3.unit_y, Vec3.unit_z]; ring))))))))))))))))))))))))))))))))))
  · exact Or.inr (Or.inr (Or.inr (Or.inr (Or.inr (Or.inr (Or.inr (Or.inr (Or.inr (Or.inr (Or.inr (Or.inr (Or.inr (Or.inr (Or.inr (Or.inr (Or.inr (Or.inr (Or.inr (Or.inr (Or.inr (Or.inr (Or.inr (Or.inr (Or.inr (Or.inr (Or.inr (Or.inr (Or.inr (Or.inr (Or.inl (Vec3.eq_of _ _ (by simp only [Vec3.add_def, Vec3.sub_def, Vec3.neg_def, Vec3.smul_def, Vec3.unit_x, Vec3.unit_y, Vec3.unit_z]; ring) (by simp only [Vec3.add_def, Vec3.sub_def, Vec3.neg_def, Vec3.smul_def, Vec3.unit_x, Vec3.unit_y, Vec3.unit_z]; ring) (by simp only [Vec3.add_def, Vec3.sub_def, Vec3.neg_def, Vec3.smul_def, Vec3.unit_x, Vec3.unit_y, Vec3.unit_z]; ring))))))))))))))))))))))))))))))))
  · exact Or.inr (Or.inr (Or.inr (Or.inr (Or.inr (Or.inr (Or.inr (Or.inr (Or.inr (Or.inr (Or.inr (Or.inr (Or.inr (Or.inr (Or.inr (Or.inr (Or.inr (Or.inr (Or.inr (Or.inr (Or.inr (Or.inr (Or.inr (Or.inr (Or.inr (Or.inr (Or.inr (Or.inr (Or.inr (Or.inr (Or.inr (Or.inr (Or.inl (Vec3.eq_of _ _ (by simp only [Vec3.add_def, Vec3.sub_def, Vec3.neg_def, Vec3.smul_def, Vec3.unit_x, Vec3.unit_y, Vec3.unit_z]; ring) (by simp only [Vec3.add_def, Vec3.sub_def, Vec3.neg_def, Vec3.smul_def, Vec3.unit_x, Vec3.unit_y, Vec3.unit_z]; ring) (by simp only [Vec3.add_def, Vec3.sub_def, Vec3.neg_def, Vec3.smul_def, Vec3.unit_x, Vec3.unit_y, Vec3.unit_z]; ring))))))))))))))))))))))))))))))))))
  · exact Or.inr (Or.inr (Or.inr (Or.inr (Or.inr (Or.inr (Or.inr (Or.inr (Or.inr (Or.inr (Or.inr (Or.inr (Or.inr (Or.inr (Or.inr (Or.inr (Or.inr (Or.inr (Or.inr (Or.inr (Or.inr (Or.inr (Or.inr (Or.inr (Or.inr (Or.inr (Or.inr (Or.inr (Or.inr (Or.inr (Or.inr (Or.inl (Vec3.eq_of _ _ (by simp only [Vec3.add_def, Vec3.sub_def, Vec3.neg_def, Vec3.smul_def, Vec3.unit_x, Vec3.unit_y, Vec3.unit_z]; ring) (by simp only [Vec3.add_def, Vec3.sub_def, Vec3.neg_def, Vec3.smul_def, Vec3.unit_x, Vec3.unit_y, Vec3.unit_z]; ring) (by simp only [Vec3.add_def, Vec3.sub_def, Vec3.neg_def, Vec3.smul_def, Vec3.unit_x, Vec3.unit_y, Vec3.unit_z]; ring)))))))))))))))))))))))))))))))))
  · exact Or.inl (Vec3.eq_of _ _ (by simp only [Vec3.add_def, Vec3.sub_def, Vec3.neg_def, Vec3.smul_def, Vec3.unit_x, Vec3.unit_y, Vec3.unit_z]; ring) (by simp only [Vec3.add_def, Vec3.sub_def, Vec3.neg_def, Vec3.smul_def, Vec3.unit_x, Vec3.unit_y, Vec3.unit_z]; ring) (by simp only [Vec3.add_def, Vec3.sub_def, Vec3.neg_def, Vec3.smul_def, Vec3.unit_x, Vec3.unit_y, Vec3.unit_z]; ring))
  · exact Or.inr (Or.inr (Or.inr (Or.inr (Or.inr (Or.inl (Vec3.eq_of _ _ (by simp only [Vec3.add_def, Vec3.sub_def, Vec3.neg_def, Vec3.smul_def, Vec3.unit_x, Vec3.unit_y, Vec3.unit_z]; ring) (by simp only [Vec3.add_def, Vec3.sub_def, Vec3.neg_def, Vec3.smul_def, Vec3.unit_x, Vec3.unit_y, Vec3.unit_z]; ring) (by simp only [Vec3.add_def, Vec3.sub_def, Vec3.neg_def, Vec3.smul_def, Vec3.unit_x, Vec3.unit_y, Vec3.unit_z]; ring)))))))
  · exact Or.inr (Or.inr (Or.inl (Vec3.eq_of _ _ (by simp only [Vec3.add_def, Vec3.sub_def, Vec3.neg_def, Vec3.smul_def, Vec3.unit_x, Vec3.unit_y, Vec3.unit_z]; ring) (by simp only [Vec3.add_def, Vec3.sub_def, Vec3.neg_def, Vec3.smul_def, Vec3.unit_x, Vec3.unit_y, Vec3.unit_z]; ring) (by simp only [Vec3.add_def, Vec3.sub_def, Vec3.neg_def, Vec3.smul_def, Vec3.unit_x, Vec3.unit_y, Vec3.unit_z]; ring))))
  · exact Or.inl (Vec3.eq_of _ _ (by simp only [Vec3.add_def, Vec3.sub_def, Vec3.neg_def, Vec3.smul_def, Vec3.unit_x, Vec3.unit_y, Vec3.unit_z]; ring) (by simp only [Vec3.add_def, Vec3.sub_def, Vec3.neg_def, Vec3.smul_def, Vec3.unit_x, Vec3.unit_y, Vec3.unit_z]; ring) (by simp only [Vec3.add_def, Vec3.sub_def, Vec3.neg_def, Vec3.smul_def, Vec3.unit_x, Vec3.unit_y, Vec3.unit_z]; ring))
  · exact Or.inr (Or.inr (Or.inl (Vec3.eq_of _ _ (by simp only [Vec3.add_def, Vec3.sub_def, Vec3.neg_def, Vec3.smul_def, Vec3.unit_x, Vec3.unit_y, Vec3.unit_z]; ring) (by simp only [Vec3.add_def, Vec3.sub_def, Vec3.neg_def, Vec3.smul_def, Vec3.unit_x, Vec3.unit_y, Vec3.unit_z]; ring) (by simp only [Vec3.add_def, Vec3.sub_def, Vec3.neg_def, Vec3.smul_def, Vec3.unit_x, Vec3.unit_y, Vec3.unit_z]; ring))))
  · exact Or.inr (Or.inl (Vec3.eq_of _ _ (by simp only [Vec3.add_def, Vec3.sub_def, Vec3.neg_def, Vec3.smul_def, Vec3.unit_x, Vec3.unit_y, Vec3.unit_z]; ring) (by simp only [Vec3.add_def, Vec3.sub_def, Vec3.neg_def, Vec3.smul_def, Vec3.unit_x, Vec3.unit_y, Vec3.unit_z]; ring) (by simp only [Vec3.add_def, Vec3.sub_def, Vec3.neg_def, Vec3.smul_def, Vec3.unit_x, Vec3.unit_y, Vec3.unit_z]; ring)))
  · exact Or.inr (Or.inr (Or.inr (Or.inr (Or.inr (Or.inr (Or.inl (Vec3.eq_of _ _ (by simp only [Vec3.add_def, Vec3.sub_def, Vec3.neg_def, Vec3.smul_def, Vec3.unit_x, Vec3.unit_y, Vec3.unit_z]; ring) (by simp only [Vec3.add_def, Vec3.sub_def, Vec3.neg_def, Vec3.smul_def, Vec3.unit_x, Vec3.unit_y, Vec3.unit_z]; ring) (by simp only [Vec3.add_def, Vec3.sub_def, Vec3.neg_def, Vec3.smul_def, Vec3.unit_x, Vec3.unit_y, Vec3.unit_z]; ring))))))))
  · exact Or.inr (Or.inr (Or.inr (Or.inr (Or.inr (Or.inr (Or.inr (Or.inr (Or.inr (Or.inr (Or.inr (Or.inl (Vec3.eq_of _ _ (by simp only [Vec3.add_def, Vec3.sub_def, Vec3.neg_def, Vec3.smul_def, Vec3.unit_x, Vec3.unit_y, Vec3.unit_z]; ring) (by simp only [Vec3.add_def, Vec3.sub_def, Vec3.neg_def, Vec3.smul_def, Vec3.unit_x, Vec3.unit_y, Vec3.unit_z]; ring) (by simp only [Vec3.add_def, Vec3.sub_def, Vec3.neg_def, Vec3.smul_def, Vec3.unit_x, Vec3.unit_y, Vec3.unit_z]; ring)))))))))))))
  · exact Or.inr (Or.inr (Or.inr (Or.inr (Or.inr (Or.inr (Or.inr (Or.inr (Or.inl (Vec3.eq_of _ _ (by simp only [Vec3.add_def, Vec3.sub_def, Vec3.neg_def, Vec3.smul_def, Vec3.unit_x, Vec3.unit_y, Vec3.unit_z]; ring) (by simp only [Vec3.add_def, Vec3.sub_def, Vec3.neg_def, Vec3.smul_def, Vec3.unit_x, Vec3.unit_y, Vec3.unit_z]; ring) (by simp only [Vec3.add_def, Vec3.sub_def, Vec3.neg_def, Vec3.smul_def, Vec3.unit_x, Vec3.unit_y, Vec3.unit_z]; ring))))))))))
  · exact Or.inr (Or.inr (Or.inr (Or.inr (Or.inr (Or.inr (Or.inl (Vec3.eq_of _ _ (by simp only [Vec3.add_def, Vec3.sub_def, Vec3.neg_def, Vec3.smul_def, Vec3.unit_x, Vec3.unit_y, Vec3.unit_z]; ring) (by simp only [Vec3.add_def, Vec3.sub_def, Vec3.neg_def, Vec3.smul_def, Vec3.unit_x, Vec3.unit_y, Vec3.unit_z]; ring) (by simp only [Vec3.add_def, Vec3.sub_def, Vec3.neg_def, Vec3.smul_def, Vec3.unit_x, Vec3.unit_y, Vec3.unit_z]; ring))))))))
  · exact Or.inr (Or.inr (Or.inr (Or.inr (Or.inr (Or.inr (Or.inr (Or.inr (Or.inl (Vec3.eq_of _ _ (by simp only [Vec3.add_def, Vec3.sub_def, Vec3.neg_def, Vec3.smul_def, Vec3.unit_x, Vec3.unit_y, Vec3.unit_z]; ring) (by simp only [Vec3.add_def, Vec3.sub_def, Vec3.neg_def, Vec3.smul_def, Vec3.unit_x, Vec3.unit_y, Vec3.unit_z]; ring) (by simp only [Vec3.add_def, Vec3.sub_def, Vec3.neg_def, Vec3.smul_def, Vec3.unit_x, Vec3.unit_y, Vec3.unit_z]; ring))))))))))
  · exact Or.inr (Or.inr (Or.inr (Or.inr (Or.inr (Or.inr (Or.inr (Or.inl (Vec3.eq_of _ _ (by simp only [Vec3.add_def, Vec3.sub_def, Vec3.neg_def, Vec3.smul_def, Vec3.unit_x, Vec3.unit_y, Vec3.unit_z]; ring) (by simp only [Vec3.add_def, Vec3.sub_def, Vec3.neg_def, Vec3.smul_def, Vec3.unit_x, Vec3.unit_y, Vec3.unit_z]; ring) (by simp only [Vec3.add_def, Vec3.sub_def, Vec3.neg_def, Vec3.smul_def, Vec3.unit_x, Vec3.unit_y, Vec3.unit_z]; ring)))))))))
  · exact Or.inr (Or.inr (Or.inr (Or.inr (Or.inr (Or.inr (Or.inr (Or.inr (Or.inr (Or.inr (Or.inr (Or.inr (Or.inl (Vec3.eq_of _ _ (by simp only [Vec3.add_def, Vec3.sub_def, Vec3.neg_def, Vec3.smul_def, Vec3.unit_x, Vec3.unit_y, Vec3.unit_z]; ring) (by simp only [Vec3.add_def, Vec3.sub_def, Vec3.neg_def, Vec3.smul_def, Vec3.unit_x, Vec3.unit_y, Vec3.unit_z]; ring) (by simp only [Vec3.add_def, Vec3.sub_def, Vec3.neg_def, Vec3.smul_def, Vec3.unit_x, Vec3.unit_y, Vec3.unit_z]; ring))))))))))))))
  · exact Or.inr (Or.inr (Or.inr (Or.inr (Or.inr (Or.inr (Or.inr (Or.inr (Or.inr (Or.inr (Or.inr (Or.inr (Or.inr (Or.inr (Or.inr (Or.inr (Or.inr (Or.inl (Vec3.eq_of _ _ (by simp only [Vec3.add_def, Vec3.sub_def, Vec3.neg_def, Vec3.smul_def, Vec3.unit_x, Vec3.unit_y, Vec3.unit_z]; ring) (by simp only [Vec3.add_def, Vec3.sub_def, Vec3.neg_def, Vec3.smul_def, Vec3.unit_x, Vec3.unit_y, Vec3.unit_z]; ring) (by simp only [Vec3.add_def, Vec3.sub_def, Vec3.neg_def, Vec3.smul_def, Vec3.unit_x, Vec3.unit_y, Vec3.unit_z]; ring)))))))))))))))))))
  · exact Or.inr (Or.inr (Or.inr (Or.inr (Or.inr (Or.inr (Or.inr (Or.inr (Or.inr (Or.inr (Or.inr (Or.inr (Or.inr (Or.inr (Or.inl (Vec3.eq_of _ _ (by simp only [Vec3.add_def, Vec3.sub_def, Vec3.neg_def, Vec3.smul_def, Vec3.unit_x, Vec3.unit_y, Vec3.unit_z]; ring) (by simp only [Vec3.add_def, Vec3.sub_def, Vec3.neg_def, Vec3.smul_def, Vec3.unit_x, Vec3.unit_y, Vec3.unit_z]; ring) (by simp only [Vec3.add_def, Vec3.sub_def, Vec3.neg_def, Vec3.smul_def, Vec3.unit_x, Vec3.unit_y, Vec3.unit_z]; ring))))))))))))))))
  · exact Or.inr (Or.inr (Or.inr (Or.inr (Or.inr (Or.inr (Or.inr (Or.inr (Or.inr (Or.inr (Or.inr (Or.inr (Or.inl (Vec3.eq_of _ _ (by simp only [Vec3.add_def, Vec3.sub_def, Vec3.neg_def, Vec3.smul_def, Vec3.unit_x, Vec3.unit_y, Vec3.unit_z]; ring) (by simp only [Vec3.add_def, Vec3.sub_def, Vec3.neg_def, Vec3.smul_def, Vec3.unit_x, Vec3.unit_y, Vec3.unit_z]; ring) (by simp only [Vec3.add_def, Vec3.sub_def, Vec3.neg_def, Vec3.smul_def, Vec3.unit_x, Vec3.unit_y, Vec3.unit_z]; ring))))))))))))))
  · exact Or.inr (Or.inr (Or.inr (Or.inr (Or.inr (Or.inr (Or.inr (Or.inr (Or.inr (Or.inr (Or.inr (Or.inr (Or.inr (Or.inr (Or.inl (Vec3.eq_of _ _ (by simp only [Vec3.add_def, Vec3.sub_def, Vec3.neg_def, Vec3.smul_def, Vec3.unit_x, Vec3.unit_y, Vec3.unit_z]; ring) (by simp only [Vec3.add_def, Vec3.sub_def, Vec3.neg_def, Vec3.smul_def, Vec3.unit_x, Vec3.unit_y, Vec3.unit_z]; ring) (by simp only [Vec3.add_def, Vec3.sub_def, Vec3.neg_def, Vec3.smul_def, Vec3.unit_x, Vec3.unit_y, Vec3.unit_z]; ring))))))))))))))))
  · exact Or.inr (Or.inr (Or.inr (Or.inr (Or.inr (Or.inr (Or.inr (Or.inr (Or.inr (Or.inr (Or.inr (Or.inr (Or.inr (Or.inl (Vec3.eq_of _ _ (by simp only [Vec3.add_def, Vec3.sub_def, Vec3.neg_def, Vec3.smul_def, Vec3.unit_x, Vec3.unit_y, Vec3.unit_z]; ring) (by simp only [Vec3.add_def, Vec3.sub_def, Vec3.neg_def, Vec3.smul_def, Vec3.unit_x, Vec3.unit_y, Vec3.unit_z]; ring) (by simp only [Vec3.add_def, Vec3.sub_def, Vec3.neg_def, Vec3.smul_def, Vec3.unit_x, Vec3.unit_y, Vec3.unit_z]; ring)))))))))))))))

set_option maxHeartbeats 2000000 in
/-- Shared helper: the cube's vertex normal stream deduplicates to the six
outward axis directions. -/
theorem cube_normals_helper (S : ℚ) (hS : 0 < S) :
    ((Model.cubeBuilder S).vertices.map (fun v => v.normal)).dedup = axisNormals := by
  have hn1a : Vec3.normalize (Vec3.cross ((⟨-S / 2, -S / 2, -S / 2⟩ : Vec3) + S • Vec3.unit_z - (⟨-S / 2, -S / 2, -S / 2⟩ : Vec3)) ((⟨-S / 2, -S / 2, -S / 2⟩ : Vec3) + S • Vec3.unit_z + S • Vec3.unit_x - (⟨-S / 2, -S / 2, -S / 2⟩ : Vec3))) = (⟨0, 1, 0⟩ : Vec3) := by
    rw [show Vec3.cross ((⟨-S / 2, -S / 2, -S / 2⟩ : Vec3) + S • Vec3.unit_z - (⟨-S / 2, -S / 2, -S / 2⟩ : Vec3)) ((⟨-S / 2, -S / 2, -S / 2⟩ : Vec3) + S • Vec3.unit_z + S • Vec3.unit_x - (⟨-S / 2, -S / 2, -S / 2⟩ : Vec3)) = (⟨0, S * S, 0⟩ : Vec3) from Vec3.eq_of _ _
      (by simp only [Vec3.cross, Vec3.add_def, Vec3.sub_def, Vec3.neg_def, Vec3.smul_def, Vec3.unit_x, Vec3.unit_y, Vec3.unit_z]; ring) (by simp only [Vec3.cross, Vec3.add_def, Vec3.sub_def, Vec3.neg_def, Vec3.smul_def, Vec3.unit_x, Vec3.unit_y, Vec3.unit_z]; ring)
      (by simp only [Vec3.cross, Vec3.add_def, Vec3.sub_def, Vec3.neg_def, Vec3.smul_def, Vec3.unit_x, Vec3.unit_y, Vec3.unit_z]; ring)]
    exact Vec3.normalize_pos_y (mul_pos hS hS)
  have hn1b : Vec3.normalize (Vec3.cross ((⟨-S / 2, -S / 2, -S / 2⟩ : Vec3) + S • Vec3.unit_z + S • Vec3.unit_x - (⟨-S / 2, -S / 2, -S / 2⟩ : Vec3)) ((⟨-S / 2, -S / 2, -S / 2⟩ : Vec3) + S • Vec3.unit_x - (⟨-S / 2, -S / 2, -S / 2⟩ : Vec3))) = (⟨0, 1, 0⟩ : Vec3) := by
    rw [show Vec3.cross ((⟨-S / 2, -S / 2, -S / 2⟩ : Vec3) + S • Vec3.unit_z + S • Vec3.unit_x - (⟨-S / 2, -S / 2, -S / 2⟩ : Vec3)) ((⟨-S / 2, -S / 2, -S / 2⟩ : Vec3) + S • Vec3.unit_x - (⟨-S / 2, -S / 2, -S / 2⟩ : Vec3)) = (⟨0, S * S, 0⟩ : Vec3) from Vec3.eq_of _ _
      (by simp only [Vec3.cross, Vec3.add_def, Vec3.sub_def, Vec3.neg_def, Vec3.smul_def, Vec3.unit_x, Vec3.unit_y, Vec3.unit_z]; ring) (by simp only [Vec3.cross, Vec3.add_def, Vec3.sub_def, Vec3.neg_def, Vec3.smul_def, Vec3.unit_x, Vec3.unit_y, Vec3.unit_z]; ring)
      (by simp only [Vec3.cross, Vec3.add_def, Vec3.sub_def, Vec3.neg_def, Vec3.smul_def, Vec3.unit_x, Vec3.unit_y, Vec3.unit_z]; ring)]
    exact Vec3.normalize_pos_y (mul_pos hS hS)
  have hn2a : Vec3.normalize (Vec3.cross ((⟨-S / 2, -S / 2, -S / 2⟩ : Vec3) + S • Vec3.unit_x - (⟨-S / 2, -S / 2, -S / 2⟩ : Vec3)) ((⟨-S / 2, -S / 2, -S / 2⟩ : Vec3) + S • Vec3.unit_x + S • Vec3.unit_y - (⟨-S / 2, -S / 2, -S / 2⟩ : Vec3))) = (⟨0, 0, 1⟩ : Vec3) := by
    rw [show Vec3.cross ((⟨-S / 2, -S / 2, -S / 2⟩ : Vec3) + S • Vec3.unit_x - (⟨-S / 2, -S / 2, -S / 2⟩ : Vec3)) ((⟨-S / 2, -S / 2, -S / 2⟩ : Vec3) + S • Vec3.unit_x + S • Vec3.unit_y - (⟨-S / 2, -S / 2, -S / 2⟩ : Vec3)) = (⟨0, 0, S * S⟩ : Vec3) from Vec3.eq_of _ _
      (by simp only [Vec3.cross, Vec3.add_def, Vec3.sub_def, Vec3.neg_def, Vec3.smul_def, Vec3.unit_x, Vec3.unit_y, Vec3.unit_z]; ring) (by simp only [Vec3.cross, Vec3.add_def, Vec3.sub_def, Vec3.neg_def, Vec3.smul_def, Vec3.unit_x, Vec3.unit_y, Vec3.unit_z]; ring)
      (by simp only [Vec3.cross, Vec3.add_def, Vec3.sub_def, Vec3.neg_def, Vec3.smul_def, Vec3.unit_x, Vec3.unit_y, Vec3.unit_z]; ring)]
    exact Vec3.normalize_pos_z (mul_pos hS hS)
  have hn2b : Vec3.normalize (Vec3.cross ((⟨-S / 2, -S / 2, -S / 2⟩ : Vec3) + S • Vec3.unit_x + S • Vec3.unit_y - (⟨-S / 2, -S / 2, -S / 2⟩ : Vec3)) ((⟨-S / 2, -S / 2, -S / 2⟩ : Vec3) + S • Vec3.unit_y - (⟨-S / 2, -S / 2, -S / 2⟩ : Vec3))) = (⟨0, 0, 1⟩ : Vec3) := by
    rw [show Vec3.cross ((⟨-S / 2, -S / 2, -S / 2⟩ : Vec3) + S • Vec3.unit_x + S • Vec3.unit_y - (⟨-S / 2, -S / 2, -S / 2⟩ : Vec3)) ((⟨-S / 2, -S / 2, -S / 2⟩ : Vec3) + S • Vec3.unit_y - (⟨-S / 2, -S / 2, -S / 2⟩ : Vec3)) = (⟨0, 0, S * S⟩ : Vec3) from Vec3.eq_of _ _
      (by simp only [Vec3.cross, Vec3.add_def, Vec3.sub_def, Vec3.neg_def, Vec3.smul_def, Vec3.unit_x, Vec3.unit_y, Vec3.unit_z]; ring) (by simp only [Vec3.cross, Vec3.add_def, Vec3.sub_def, Vec3.neg_def, Vec3.smul_def, Vec3.unit_x, Vec3.unit_y, Vec3.unit_z]; ring)
      (by simp only [Vec3.cross, Vec3.add_def, Vec3.sub_def, Vec3.neg_def, Vec3.smul_def, Vec3.unit_x, Vec3.unit_y, Vec3.unit_z]; ring)]
    exact Vec3.normalize_pos_z (mul_pos hS hS)
  have hn3a : Vec3.normalize (Vec3.cross ((⟨-S / 2, -S / 2, -S / 2⟩ : Vec3) + S • Vec3.unit_y - (⟨-S / 2, -S / 2, -S / 2⟩ : Vec3)) ((⟨-S / 2, -S / 2, -S / 2⟩ : Vec3) + S • Vec3.unit_y + S • Vec3.unit_z - (⟨-S / 2, -S / 2, -S / 2⟩ : Vec3))) = (⟨1, 0, 0⟩ : Vec3) := by
    rw [show Vec3.cross ((⟨-S / 2, -S / 2, -S / 2⟩ : Vec3) + S • Vec3.unit_y - (⟨-S / 2, -S / 2, -S / 2⟩ : Vec3)) ((⟨-S / 2, -S / 2, -S / 2⟩ : Vec3) + S • Vec3.unit_y + S • Vec3.unit_z - (⟨-S / 2, -S / 2, -S / 2⟩ : Vec3)) = (⟨S * S, 0, 0⟩ : Vec3) from Vec3.eq_of _ _
      (by simp only [Vec3.cross, Vec3.add_def, Vec3.sub_def, Vec3.neg_def, Vec3.smul_def, Vec3.unit_x, Vec3.unit_y, Vec3.unit_z]; ring) (by simp only [Vec3.cross, Vec3.add_def, Vec3.sub_def, Vec3.neg_def, Vec3.smul_def, Vec3.unit_x, Vec3.unit_y, Vec3.unit_z]; ring)
      (by simp only [Vec3.cross, Vec3.add_def, Vec3.sub_def, Vec3.neg_def, Vec3.smul_def, Vec3.unit_x, Vec3.unit_y, Vec3.unit_z]; ring)]
    exact Vec3.normalize_pos_x (mul_pos hS hS)
  have hn3b : Vec3.normalize (Vec3.cross ((⟨-S / 2, -S / 2, -S / 2⟩ : Vec3) + S • Vec3.unit_y + S • Vec3.unit_z - (⟨-S / 2, -S / 2, -S / 2⟩ : Vec3)) ((⟨-S / 2, -S / 2, -S / 2⟩ : Vec3) + S • Vec3.unit_z - (⟨-S / 2, -S / 2, -S / 2⟩ : Vec3))) = (⟨1, 0, 0⟩ : Vec3) := by
    rw [show Vec3.cross ((⟨-S / 2, -S / 2, -S / 2⟩ : Vec3) + S • Vec3.unit_y + S • Vec3.unit_z - (⟨-S / 2, -S / 2, -S / 2⟩ : Vec3)) ((⟨-S / 2, -S / 2, -S / 2⟩ : Vec3) + S • Vec3.unit_z - (⟨-S / 2, -S / 2, -S / 2⟩ : Vec3)) = (⟨S * S, 0, 0⟩ : Vec3) from Vec3.eq_of _ _
      (by simp only [Vec3.cross, Vec3.add_def, Vec3.sub_def, Vec3.neg_def, Vec3.smul_def, Vec3.unit_x, Vec3.unit_y, Vec3.unit_z]; ring) (by simp only [Vec3.cross, Vec3.add_def, Vec3.sub_def, Vec3.neg_def, Vec3.smul_def, Vec3.unit_x, Vec3.unit_y, Vec3.unit_z]; ring)
      (by simp only [Vec3.cross, Vec3.add_def, Vec3.sub_def, Vec3.neg_def, Vec3.smul_def, Vec3.unit_x, Vec3.unit_y, Vec3.unit_z]; ring)]
    exact Vec3.normalize_pos_x (mul_pos hS hS)
  have hn4a : Vec3.normalize (Vec3.cross ((⟨S / 2, S / 2, S / 2⟩ : Vec3) + -(S • Vec3.unit_x) - (⟨S / 2, S / 2, S / 2⟩ : Vec3)) ((⟨S / 2, S / 2, S / 2⟩ : Vec3) + -(S • Vec3.unit_x) + -(S • Vec3.unit_z) - (⟨S / 2, S / 2, S / 2⟩ : Vec3))) = (⟨0, -1, 0⟩ : Vec3) := by
    rw [show Vec3.cross ((⟨S / 2, S / 2, S / 2⟩ : Vec3) + -(S • Vec3.unit_x) - (⟨S / 2, S / 2, S / 2⟩ : Vec3)) ((⟨S / 2, S / 2, S / 2⟩ : Vec3) + -(S • Vec3.unit_x) + -(S • Vec3.unit_z) - (⟨S / 2, S / 2, S / 2⟩ : Vec3)) = (⟨0, -(S * S), 0⟩ : Vec3) from Vec3.eq_of _ _
      (by simp only [Vec3.cross, Vec3.add_def, Vec3.sub_def, Vec3.neg_def, Vec3.smul_def, Vec3.unit_x, Vec3.unit_y, Vec3.unit_z]; ring) (by simp only [Vec3.cross, Vec3.add_def, Vec3.sub_def, Vec3.neg_def, Vec3.smul_def, Vec3.unit_x, Vec3.unit_y, Vec3.unit_z]; ring)
      (by simp only [Vec3.cross, Vec3.add_def, Vec3.sub_def, Vec3.neg_def, Vec3.smul_def, Vec3.unit_x, Vec3.unit_y, Vec3.unit_z]; ring)]
    exact Vec3.normalize_neg_y (mul_pos hS hS)
  have hn4b : Vec3.normalize (Vec3.cross ((⟨S / 2, S / 2, S / 2⟩ : Vec3) + -(S • Vec3.unit_x) + -(S • Vec3.unit_z) - (⟨S / 2, S / 2, S / 2⟩ : Vec3)) ((⟨S / 2, S / 2, S / 2⟩ : Vec3) + -(S • Vec3.unit_z) - (⟨S / 2, S / 2, S / 2⟩ : Vec3))) = (⟨0, -1, 0⟩ : Vec3) := by
    rw [show Vec3.cross ((⟨S / 2, S / 2, S / 2⟩ : Vec3) + -(S • Vec3.unit_x) + -(S • Vec3.unit_z) - (⟨S / 2, S / 2, S / 2⟩ : Vec3)) ((⟨S / 2, S / 2, S / 2⟩ : Vec3) + -(S • Vec3.unit_z) - (⟨S / 2, S / 2, S / 2⟩ : Vec3)) = (⟨0, -(S * S), 0⟩ : Vec3) from Vec3.eq_of _ _
      (by simp only [Vec3.cross, Vec3.add_def, Vec3.sub_def, Vec3.neg_def, Vec3.smul_def, Vec3.unit_x, Vec3.unit_y, Vec3.unit_z]; ring) (by simp only [Vec3.cross, Vec3.add_def, Vec3.sub_def, Vec3.neg_def, Vec3.smul_def, Vec3.unit_x, Vec3.unit_y, Vec3.unit_z]; ring)
      (by simp only [Vec3.cross, Vec3.add_def, Vec3.sub_def, Vec3.neg_def, Vec3.smul_def, Vec3.unit_x, Vec3.unit_y, Vec3.unit_z]; ring)]
    exact Vec3.normalize_neg_y (mul_pos hS hS)
  have hn5a : Vec3.normalize (Vec3.cross ((⟨S / 2, S / 2, S / 2⟩ : Vec3) + -(S • Vec3.unit_y) - (⟨S / 2, S / 2, S / 2⟩ : Vec3)) ((⟨S / 2, S / 2, S / 2⟩ : Vec3) + -(S • Vec3.unit_y) + -(S • Vec3.unit_x) - (⟨S / 2, S / 2, S / 2⟩ : Vec3))) = (⟨0, 0, -1⟩ : Vec3) := by
    rw [show Vec3.cross ((⟨S / 2, S / 2, S / 2⟩ : Vec3) + -(S • Vec3.unit_y) - (⟨S / 2, S / 2, S / 2⟩ : Vec3)) ((⟨S / 2, S / 2, S / 2⟩ : Vec3) + -(S • Vec3.unit_y) + -(S • Vec3.unit_x) - (⟨S / 2, S / 2, S / 2⟩ : Vec3)) = (⟨0, 0, -(S * S)⟩ : Vec3) from Vec3.eq_of _ _
      (by simp only [Vec3.cross, Vec3.add_def, Vec3.sub_def, Vec3.neg_def, Vec3.smul_def, Vec3.unit_x, Vec3.unit_y, Vec3.unit_z]; ring) (by simp only [Vec3.cross, Vec3.add_def, Vec3.sub_def, Vec3.neg_def, Vec3.smul_def, Vec3.unit_x, Vec3.unit_y, Vec3.unit_z]; ring)
      (by simp only [Vec3.cross, Vec3.add_def, Vec3.sub_def, Vec3.neg_def, Vec3.smul_def, Vec3.unit_x, Vec3.unit_y, Vec3.unit_z]; ring)]
    exact Vec3.normalize_neg_z (mul_pos hS hS)
  have hn5b : Vec3.normalize (Vec3.cross ((⟨S / 2, S / 2, S / 2⟩ : Vec3) + -(S • Vec3.unit_y) + -(S • Vec3.unit_x) - (⟨S / 2, S / 2, S / 2⟩ : Vec3)) ((⟨S / 2, S / 2, S / 2⟩ : Vec3) + -(S • Vec3.unit_x) - (⟨S / 2, S / 2, S / 2⟩ : Vec3))) = (⟨0, 0, -1⟩ : Vec3) := by
    rw [show Vec3.cross ((⟨S / 2, S / 2, S / 2⟩ : Vec3) + -(S • Vec3.unit_y) + -(S • Vec3.unit_x) - (⟨S / 2, S / 2, S / 2⟩ : Vec3)) ((⟨S / 2, S / 2, S / 2⟩ : Vec3) + -(S • Vec3.unit_x) - (⟨S / 2, S / 2, S / 2⟩ : Vec3)) = (⟨0, 0, -(S * S)⟩ : Vec3) from Vec3.eq_of _ _
      (by simp only [Vec3.cross, Vec3.add_def, Vec3.sub_def, Vec3.neg_def, Vec3.smul_def, Vec3.unit_x, Vec3.unit_y, Vec3.unit_z]; ring) (by simp only [Vec3.cross, Vec3.add_def, Vec3.sub_def, Vec3.neg_def, Vec3.smul_def, Vec3.unit_x, Vec3.unit_y, Vec3.unit_z]; ring)
      (by simp only [Vec3.cross, Vec3.add_def, Vec3.sub_def, Vec3.neg_def, Vec3.smul_def, Vec3.unit_x, Vec3.unit_y, Vec3.unit_z]; ring)]
    exact Vec3.normalize_neg_z (mul_pos hS hS)
  have hn6a : Vec3.normalize (Vec3.cross ((⟨S / 2, S / 2, S / 2⟩ : Vec3) + -(S • Vec3.unit_z) - (⟨S / 2, S / 2, S / 2⟩ : Vec3)) ((⟨S / 2, S / 2, S / 2⟩ : Vec3) + -(S • Vec3.unit_z) + -(S • Vec3.unit_y) - (⟨S / 2, S / 2, S / 2⟩ : Vec3))) = (⟨-1, 0, 0⟩ : Vec3) := by
    rw [show Vec3.cross ((⟨S / 2, S / 2, S / 2⟩ : Vec3) + -(S • Vec3.unit_z) - (⟨S / 2, S / 2, S / 2⟩ : Vec3)) ((⟨S / 2, S / 2, S / 2⟩ : Vec3) + -(S • Vec3.unit_z) + -(S • Vec3.unit_y) - (⟨S / 2, S / 2, S / 2⟩ : Vec3)) = (⟨-(S * S), 0, 0⟩ : Vec3) from Vec3.eq_of _ _
      (by simp only [Vec3.cross, Vec3.add_def, Vec3.sub_def, Vec3.neg_def, Vec3.smul_def, Vec3.unit_x, Vec3.unit_y, Vec3.unit_z]; ring) (by simp only [Vec3.cross, Vec3.add_def, Vec3.sub_def, Vec3.neg_def, Vec3.smul_def, Vec3.unit_x, Vec3.unit_y, Vec3.unit_z]; ring)
      (by simp only [Vec3.cross, Vec3.add_def, Vec3.sub_def, Vec3.neg_def, Vec3.smul_def, Vec3.unit_x, Vec3.unit_y, Vec3.unit_z]; ring)]
    exact Vec3.normalize_neg_x (mul_pos hS hS)
  have hn6b : Vec3.normalize (Vec3.cross ((⟨S / 2, S / 2, S / 2⟩ : Vec3) + -(S • Vec3.unit_z) + -(S • Vec3.unit_y) - (⟨S / 2, S / 2, S / 2⟩ : Vec3)) ((⟨S / 2, S / 2, S / 2⟩ : Vec3) + -(S • Vec3.unit_y) - (⟨S / 2, S / 2, S / 2⟩ : Vec3))) = (⟨-1, 0, 0⟩ : Vec3) := by
    rw [show Vec3.cross ((⟨S / 2, S / 2, S / 2⟩ : Vec3) + -(S • Vec3.unit_z) + -(S • Vec3.unit_y) - (⟨S / 2, S / 2, S / 2⟩ : Vec3)) ((⟨S / 2, S / 2, S / 2⟩ : Vec3) + -(S • Vec3.unit_y) - (⟨S / 2, S / 2, S / 2⟩ : Vec3)) = (⟨-(S * S), 0, 0⟩ : Vec3) from Vec3.eq_of _ _
      (by simp only [Vec3.cross, Vec3.add_def, Vec3.sub_def, Vec3.neg_def, Vec3.smul_def, Vec3.unit_x, Vec3.unit_y, Vec3.unit_z]; ring) (by simp only [Vec3.cross, Vec3.add_def, Vec3.sub_def, Vec3.neg_def, Vec3.smul_def, Vec3.unit_x, Vec3.unit_y, Vec3.unit_z]; ring)
      (by simp only [Vec3.cross, Vec3.add_def, Vec3.sub_def, Vec3.neg_def, Vec3.smul_def, Vec3.unit_x, Vec3.unit_y, Vec3.unit_z]; ring)]
    exact Vec3.normalize_neg_x (mul_pos hS hS)
  have hmap : (Model.cubeBuilder S).vertices.map (fun v => v.normal) =
      [⟨0, 1, 0⟩,
       ⟨0, 1, 0⟩,
       ⟨0, 1, 0⟩,
       ⟨0, 1, 0⟩,
       ⟨0, 1, 0⟩,
       ⟨0, 1, 0⟩,
       ⟨0, 0, 1⟩,
       ⟨0, 0, 1⟩,
       ⟨0, 0, 1⟩,
       ⟨0, 0, 1⟩,
       ⟨0, 0, 1⟩,
       ⟨0, 0, 1⟩,
       ⟨1, 0, 0⟩,
       ⟨1, 0, 0⟩,
       ⟨1, 0, 0⟩,
       ⟨1, 0, 0⟩,
       ⟨1, 0, 0⟩,
       ⟨1, 0, 0⟩,
       ⟨0, -1, 0⟩,
       ⟨0, -1, 0⟩,
       ⟨0, -1, 0⟩,
       ⟨0, -1, 0⟩,
       ⟨0, -1, 0⟩,
       ⟨0, -1, 0⟩,
       ⟨0, 0, -1⟩,
       ⟨0, 0, -1⟩,
       ⟨0, 0, -1⟩,
       ⟨0, 0, -1⟩,
       ⟨0, 0, -1⟩,
       ⟨0, 0, -1⟩,
       ⟨-1, 0, 0⟩,
       ⟨-1, 0, 0⟩,
       ⟨-1, 0, 0⟩,
       ⟨-1, 0, 0⟩,
       ⟨-1, 0, 0⟩,
       ⟨-1, 0, 0⟩] := by
    simp only [Model.cubeBuilder, vertices_add_quad, MeshBuilder.new,
      List.nil_append, List.append_assoc, List.cons_append, List.map_cons,
      List.map_append, List.map_nil, hn1a, hn1b, hn2a, hn2b, hn3a, hn3b, hn4a, hn4b, hn5a, hn5b, hn6a, hn6b]
  rw [hmap]
  decide

end CubeClaim


section RoofClaim

/-- Shared helper: four `add_quad` calls with the same origin, the second of
each pair swapping the two edges, emit eight triangles in which every
triangle's reversed winding also occurs. -/
theorem roof_pairing (bl : MeshBuilder) (hwf : bl.wf) (hlen : bl.triangles.length = 10)
    (P F L R : Vec3) :
    ∀ t ∈ ((((bl.add_quad P F L).add_quad P L F).add_quad P R F).add_quad
        P F R).triangles.drop 10,
      revTri t ∈ ((((bl.add_quad P F L).add_quad P L F).add_quad P R F).add_quad
        P F R).triangles.drop 10 := by
  have w1 := wf_add_quad hwf P F L
  have w2 := wf_add_quad w1 P L F
  have w3 := wf_add_quad w2 P R F
  have hT : ((((bl.add_quad P F L).add_quad P L F).add_quad P R F).add_quad
      P F R).triangles = bl.triangles ++
      [(P, P + F, P + F + L), (P, P + F + L, P + L),
       (P, P + L, P + L + F), (P, P + L + F, P + F),
       (P, P + R, P + R + F), (P, P + R + F, P + F),
       (P, P + F, P + F + R), (P, P + F + R, P + R)] := by
    rw [triangles_add_quad w3, triangles_add_quad w2, triangles_add_quad w1,
      triangles_add_quad hwf]
    simp [List.append_assoc]
  rw [hT, ← hlen, List.drop_left]
  intro t ht
  simp only [List.mem_cons, List.not_mem_nil, or_false] at ht ⊢
  rcases ht with rfl | rfl | rfl | rfl | rfl | rfl | rfl | rfl
  · exact Or.inr (Or.inr (Or.inr (Or.inl (triEq
      (Vec3.eq_of _ _ (by simp only [revTri, Vec3.add_def]; try ring) (by simp only [revTri, Vec3.add_def]; try ring) (by simp only [revTri, Vec3.add_def]; try ring))
      (Vec3.eq_of _ _ (by simp only [revTri, Vec3.add_def]; try ring) (by simp only [revTri, Vec3.add_def]; try ring) (by simp only [revTri, Vec3.add_def]; try ring))
      (Vec3.eq_of _ _ (by simp only [revTri, Vec3.add_def]; try ring) (by simp only [revTri, Vec3.add_def]; try ring) (by simp only [revTri, Vec3.add_def]; try ring))))))
  · exact Or.inr (Or.inr (Or.inl (triEq
      (Vec3.eq_of _ _ (by simp only [revTri, Vec3.add_def]; try ring) (by simp only [revTri, Vec3.add_def]; try ring) (by simp only [revTri, Vec3.add_def]; try ring))
      (Vec3.eq_of _ _ (by simp only [revTri, Vec3.add_def]; try ring) (by simp only [revTri, Vec3.add_def]; try ring) (by simp only [revTri, Vec3.add_def]; try ring))
      (Vec3.eq_of _ _ (by simp only [revTri, Vec3.add_def]; try ring) (by simp only [revTri, Vec3.add_def]; try ring) (by simp only [revTri, Vec3.add_def]; try ring)))))
  · exact Or.inr (Or.inl (triEq
      (Vec3.eq_of _ _ (by simp only [revTri, Vec3.add_def]; try ring) (by simp only [revTri, Vec3.add_def]; try ring) (by simp only [revTri, Vec3.add_def]; try ring))
      (Vec3.eq_of _ _ (by simp only [revTri, Vec3.add_def]; try ring) (by simp only [revTri, Vec3.add_def]; try ring) (by simp only [revTri, Vec3.add_def]; try ring))
      (Vec3.eq_of _ _ (by simp only [revTri, Vec3.add_def]; try ring) (by simp only [revTri, Vec3.add_def]; try ring) (by simp only [revTri, Vec3.add_def]; try ring))))
  · exact Or.inl (triEq
      (Vec3.eq_of _ _ (by simp only [revTri, Vec3.add_def]; try ring) (by simp only [revTri, Vec3.add_def]; try ring) (by simp only [revTri, Vec3.add_def]; try ring))
      (Vec3.eq_of _ _ (by simp only [revTri, Vec3.add_def]; try ring) (by simp only [revTri, Vec3.add_def]; try ring) (by simp only [revTri, Vec3.add_def]; try ring))
      (Vec3.eq_of _ _ (by simp only [revTri, Vec3.add_def]; try ring) (by simp only [revTri, Vec3.add_def]; try ring) (by simp only [revTri, Vec3.add_def]; try ring)))
  · exact Or.inr (Or.inr (Or.inr (Or.inr (Or.inr (Or.inr (Or.inr ((triEq
      (Vec3.eq_of _ _ (by simp only [revTri, Vec3.add_def]; try ring) (by simp only [revTri, Vec3.add_def]; try ring) (by simp only [revTri, Vec3.add_def]; try ring))
      (Vec3.eq_of _ _ (by simp only [revTri, Vec3.add_def]; try ring) (by simp only [revTri, Vec3.add_def]; try ring) (by simp only [revTri, Vec3.add_def]; try ring))
      (Vec3.eq_of _ _ (by simp only [revTri, Vec3.add_def]; try ring) (by simp only [revTri, Vec3.add_def]; try ring) (by simp only [revTri, Vec3.add_def]; try ring))))))))))
  · exact Or.inr (Or.inr (Or.inr (Or.inr (Or.inr (Or.inr (Or.inl (triEq
      (Vec3.eq_of _ _ (by simp only [revTri, Vec3.add_def]; try ring) (by simp only [revTri, Vec3.add_def]; try ring) (by simp only [revTri, Vec3.add_def]; try ring))
      (Vec3.eq_of _ _ (by simp only [revTri, Vec3.add_def]; try ring) (by simp only [revTri, Vec3.add_def]; try ring) (by simp only [revTri, Vec3.add_def]; try ring))
      (Vec3.eq_of _ _ (by simp only [revTri, Vec3.add_def]; try ring) (by simp only [revTri, Vec3.add_def]; try ring) (by simp only [revTri, Vec3.add_def]; try ring)))))))))
  · exact Or.inr (Or.inr (Or.inr (Or.inr (Or.inr (Or.inl (triEq
      (Vec3.eq_of _ _ (by simp only [revTri, Vec3.add_def]; try ring) (by simp only [revTri, Vec3.add_def]; try ring) (by simp only [revTri, Vec3.add_def]; try ring))
      (Vec3.eq_of _ _ (by simp only [revTri, Vec3.add_def]; try ring) (by simp only [revTri, Vec3.add_def]; try ring) (by simp only [revTri, Vec3.add_def]; try ring))
      (Vec3.eq_of _ _ (by simp only [revTri, Vec3.add_def]; try ring) (by simp only [revTri, Vec3.add_def]; try ring) (by simp only [revTri, Vec3.add_def]; try ring))))))))
  · exact Or.inr (Or.inr (Or.inr (Or.inr (Or.inl (triEq
      (Vec3.eq_of _ _ (by simp only [revTri, Vec3.add_def]; try ring) (by simp only [revTri, Vec3.add_def]; try ring) (by simp only [revTri, Vec3.add_def]; try ring))
      (Vec3.eq_of _ _ (by simp only [revTri, Vec3.add_def]; try ring) (by simp only [revTri, Vec3.add_def]; try ring) (by simp only [revTri, Vec3.add_def]; try ring))
      (Vec3.eq_of _ _ (by simp only [revTri, Vec3.add_def]; try ring) (by simp only [revTri, Vec3.add_def]; try ring) (by simp only [revTri, Vec3.add_def]; try ring)))))))

end RoofClaim


/-- C2 (counterexample): at `size = 1` the plane's vertices do not all carry
normal `(0, 1, 0)` — the emitted face normal is `(0, -1, 0)`. -/
theorem plane_normal_counterexample :
    ¬ ∀ v ∈ (Model.planeBuilder 1).vertices, v.normal = ⟨0, 1, 0⟩ := by
  intro h
  have hall := plane_normals_helper 1 one_pos
  have hlen : (Model.planeBuilder 1).vertices.length = 6 := by decide
  cases hv : (Model.planeBuilder 1).vertices with
  | nil => rw [hv] at hlen; exact absurd hlen (by decide)
  | cons a l =>
      have ha : a ∈ (Model.planeBuilder 1).vertices := by
        rw [hv]; exact List.mem_cons_self a l
      have e1 := h a ha
      have e2 := hall a ha
      rw [e1] at e2
      exact absurd e2 (by decide)

/-- C2 (amended): for `size = S > 0`, `Model::plane` emits exactly one quad
(two triangles) whose vertex stream visits exactly the four positions
`(±S/2, 0, ±S/2)`, and the face normal assigned to all of its vertices is
`(0, -1, 0)` (not `(0, 1, 0)` as claimed). -/
theorem plane_spec (S : ℚ) (hS : 0 < S) :
    (Model.planeBuilder S).triangles.length = 2 ∧
    (Model.planeBuilder S).vertices.map (fun v => v.position) =
      [⟨-S / 2, 0, -S / 2⟩, ⟨S / 2, 0, -S / 2⟩, ⟨S / 2, 0, S / 2⟩,
       ⟨-S / 2, 0, -S / 2⟩, ⟨S / 2, 0, S / 2⟩, ⟨-S / 2, 0, S / 2⟩] ∧
    ∀ v ∈ (Model.planeBuilder S).vertices, v.normal = ⟨0, -1, 0⟩ := by
  refine ⟨?_, ?_, plane_normals_helper S hS⟩
  · simp [triangles_length, Model.planeBuilder, indices_length_add_quad,
      indices_length_new]
  · simp only [Model.planeBuilder, MeshBuilder.add_quad, MeshBuilder.add_triangle,
      MeshBuilder.new, Vec3.add_def, Vec3.sub_def, List.map_append, List.map_cons,
      List.map_nil, List.append_assoc, List.nil_append, List.cons_append]
    rw [List.cons.injEq, List.cons.injEq, List.cons.injEq, List.cons.injEq,
      List.cons.injEq, List.cons.injEq]
    refine ⟨?_, ?_, ?_, ?_, ?_, ⟨?_, rfl⟩⟩ <;>
      exact Vec3.eq_of _ _ (by ring) (by ring) (by ring)

/-- C2 (witness): the amended plane claim instantiated at `size = 1`. -/
theorem plane_spec_witness :
    (0 : ℚ) < 1 ∧
    ((Model.planeBuilder 1).triangles.length = 2 ∧
     (Model.planeBuilder 1).vertices.map (fun v => v.position) =
       [⟨-1 / 2, 0, -1 / 2⟩, ⟨1 / 2, 0, -1 / 2⟩, ⟨1 / 2, 0, 1 / 2⟩,
        ⟨-1 / 2, 0, -1 / 2⟩, ⟨1 / 2, 0, 1 / 2⟩, ⟨-1 / 2, 0, 1 / 2⟩] ∧
     ∀ v ∈ (Model.planeBuilder 1).vertices, v.normal = ⟨0, -1, 0⟩) :=
  ⟨one_pos, plane_spec 1 one_pos⟩

/-- C3: for `size = S > 0`, `Model::cube` emits exactly 12 triangles, every
vertex position lies at a corner `(±S/2, ±S/2, ±S/2)`, the set of face
normals has exactly the 6 distinct axis directions (each axis-aligned and
unit length), and the emitted position set is symmetric about the origin. -/
theorem cube_spec (S : ℚ) (hS : 0 < S) :
    (Model.cubeBuilder S).triangles.length = 12 ∧
    (∀ v ∈ (Model.cubeBuilder S).vertices,
      (v.position.x = S / 2 ∨ v.position.x = -S / 2) ∧
      (v.position.y = S / 2 ∨ v.position.y = -S / 2) ∧
      (v.position.z = S / 2 ∨ v.position.z = -S / 2)) ∧
    ((Model.cubeBuilder S).vertices.map (fun v => v.normal)).dedup = axisNormals ∧
    axisNormals.length = 6 ∧ axisNormals.Nodup ∧
    (∀ n ∈ axisNormals, n.axisAligned ∧ n.unitLength) ∧
    ∀ v ∈ (Model.cubeBuilder S).vertices,
      -v.position ∈ (Model.cubeBuilder S).vertices.map (fun u => u.position) := by
  refine ⟨?_, cube_corners_helper S, cube_normals_helper S hS, rfl, by decide, ?_,
    cube_symmetry_helper S⟩
  · simp [triangles_length, Model.cubeBuilder, indices_length_add_quad,
      indices_length_new]
  · intro n hn
    simp only [axisNormals, List.mem_cons, List.not_mem_nil, or_false] at hn
    rcases hn with rfl | rfl | rfl | rfl | rfl | rfl <;>
      exact ⟨by simp [Vec3.axisAligned], by norm_num [Vec3.unitLength, Vec3.dot]⟩

/-- C3 (witness): the cube claim instantiated at `size = 2` (the spec's
`--cube --size 2.0` scenario). -/
theorem cube_spec_witness :
    (0 : ℚ) < 2 ∧
    ((Model.cubeBuilder 2).triangles.length = 12 ∧
     (∀ v ∈ (Model.cubeBuilder 2).vertices,
       (v.position.x = 2 / 2 ∨ v.position.x = -2 / 2) ∧
       (v.position.y = 2 / 2 ∨ v.position.y = -2 / 2) ∧
       (v.position.z = 2 / 2 ∨ v.position.z = -2 / 2)) ∧
     ((Model.cubeBuilder 2).vertices.map (fun v => v.normal)).dedup = axisNormals ∧
     axisNormals.length = 6 ∧ axisNormals.Nodup ∧
     (∀ n ∈ axisNormals, n.axisAligned ∧ n.unitLength) ∧
     ∀ v ∈ (Model.cubeBuilder 2).vertices,
       -v.position ∈ (Model.cubeBuilder 2).vertices.map (fun u => u.position)) :=
  ⟨by decide, cube_spec 2 (by decide)⟩

/-- C4: for positive house dimensions, the four roof panels are the last
eight emitted triangles (of 18 total); every roof triangle's
reversed-winding mirror image is also among the roof triangles — each panel
is emitted twice, the second time with swapped winding. -/
theorem house_roof_double_sided (width length height : ℚ) (hw : 0 < width)
    (hl : 0 < length) (hh : 0 < height) :
    (Model.houseBuilder width length height).triangles.length = 18 ∧
    ((Model.houseBuilder width length height).triangles.drop 10).length = 8 ∧
    ∀ t ∈ (Model.houseBuilder width length height).triangles.drop 10,
      revTri t ∈ (Model.houseBuilder width length height).triangles.drop 10 := by
  have h18 : (Model.houseBuilder width length height).triangles.length = 18 := by
    simp [triangles_length, Model.houseBuilder, indices_length_add_quad,
      indices_length_add_triangle, indices_length_new]
  refine ⟨h18, by simp [List.length_drop, h18], ?_⟩
  simp only [Model.houseBuilder]
  refine roof_pairing _ ?_ ?_ _ _ _ _
  · exact wf_add_triangle (wf_add_triangle (wf_add_quad (wf_add_quad (wf_add_quad
      (wf_add_quad (wf_new _) _ _ _) _ _ _) _ _ _) _ _ _) _ _ _) _ _ _
  · rw [triangles_length]
    simp only [indices_length_add_triangle, indices_length_add_quad,
      indices_length_new]

/-- C4 (witness): the roof claim instantiated at width = length = height = 1. -/
theorem house_roof_double_sided_witness :
    (0 : ℚ) < 1 ∧
    ((Model.houseBuilder 1 1 1).triangles.length = 18 ∧
     ((Model.houseBuilder 1 1 1).triangles.drop 10).length = 8 ∧
     ∀ t ∈ (Model.houseBuilder 1 1 1).triangles.drop 10,
       revTri t ∈ (Model.houseBuilder 1 1 1).triangles.drop 10) :=
  ⟨one_pos, house_roof_double_sided 1 1 1 one_pos one_pos one_pos⟩


set_option maxHeartbeats 1000000 in
/-- C10: `Model::add_post` emits exactly 5 quads (10 triangles) and — for a
box of positive height — none of them lies in the bottom plane
`y = position.y`: the bottom face (the near-corner quad spanned by the
right and forward edges) is omitted.  `Model::cube`, in contrast, emits all
6 faces (12 triangles), including triangles in its bottom plane
`y = -size/2`. -/
theorem add_post_omits_bottom (pos : Vec3) (w l h S : ℚ) (hh : 0 < h) (hS : 0 < S) :
    (Model.add_post (MeshBuilder.new "Post") pos w l h).triangles.length = 10 ∧
    (∀ t ∈ (Model.add_post (MeshBuilder.new "Post") pos w l h).triangles,
      ¬ triInPlaneY t pos.y) ∧
    (Model.cubeBuilder S).triangles.length = 12 ∧
    ∃ t ∈ (Model.cubeBuilder S).triangles, triInPlaneY t (-S / 2) := by
  have hw0 := wf_new "Post"
  refine ⟨?_, ?_, ?_, ?_⟩
  · simp [triangles_length, Model.add_post, indices_length_add_quad, indices_length_new]
  · intro t ht
    simp only [Model.add_post] at ht
    rw [triangles_add_quad (wf_add_quad (wf_add_quad (wf_add_quad (wf_add_quad hw0 _ _ _) _ _ _) _ _ _) _ _ _),
      triangles_add_quad (wf_add_quad (wf_add_quad (wf_add_quad hw0 _ _ _) _ _ _) _ _ _),
      triangles_add_quad (wf_add_quad (wf_add_quad hw0 _ _ _) _ _ _),
      triangles_add_quad (wf_add_quad hw0 _ _ _),
      triangles_add_quad hw0, triangles_new] at ht
    simp only [List.nil_append, List.append_assoc, List.cons_append,
      List.mem_cons, List.not_mem_nil, or_false] at ht
    rcases ht with rfl | rfl | rfl | rfl | rfl | rfl | rfl | rfl | rfl | rfl <;>
      (intro hc
       simp only [triInPlaneY, Vec3.add_def, Vec3.sub_def, Vec3.neg_def, Vec3.smul_def, Vec3.unit_x, Vec3.unit_y, Vec3.unit_z] at hc
       obtain ⟨e1, e2, e3⟩ := hc
       ring_nf at e1 e2 e3
       linarith)
  · simp [triangles_length, Model.cubeBuilder, indices_length_add_quad, indices_length_new]
  · have hwc := wf_new "Cube"
    simp only [Model.cubeBuilder]
    rw [triangles_add_quad (wf_add_quad (wf_add_quad (wf_add_quad (wf_add_quad (wf_add_quad hwc _ _ _) _ _ _) _ _ _) _ _ _) _ _ _),
      triangles_add_quad (wf_add_quad (wf_add_quad (wf_add_quad (wf_add_quad hwc _ _ _) _ _ _) _ _ _) _ _ _),
      triangles_add_quad (wf_add_quad (wf_add_quad (wf_add_quad hwc _ _ _) _ _ _) _ _ _),
      triangles_add_quad (wf_add_quad (wf_add_quad hwc _ _ _) _ _ _),
      triangles_add_quad (wf_add_quad hwc _ _ _),
      triangles_add_quad hwc, triangles_new]
    simp only [List.nil_append, List.append_assoc, List.cons_append]
    refine ⟨_, List.mem_cons_self _ _, ?_, ?_, ?_⟩ <;>
      simp only [triInPlaneY, Vec3.add_def, Vec3.sub_def, Vec3.neg_def, Vec3.smul_def, Vec3.unit_x, Vec3.unit_y, Vec3.unit_z] <;> ring

/-- C10 (witness): the post claim instantiated at the origin with unit
dimensions and a unit cube. -/
theorem add_post_omits_bottom_witness :
    (0 : ℚ) < 1 ∧
    ((Model.add_post (MeshBuilder.new "Post") ⟨0, 0, 0⟩ 1 1 1).triangles.length = 10 ∧
     (∀ t ∈ (Model.add_post (MeshBuilder.new "Post") ⟨0, 0, 0⟩ 1 1 1).triangles,
       ¬ triInPlaneY t (⟨0, 0, 0⟩ : Vec3).y) ∧
     (Model.cubeBuilder 1).triangles.length = 12 ∧
     ∃ t ∈ (Model.cubeBuilder 1).triangles, triInPlaneY t (-1 / 2)) :=
  ⟨one_pos, add_post_omits_bottom ⟨0, 0, 0⟩ 1 1 1 1 one_pos one_pos⟩

section SurfaceClaim

theorem add_linked_quad_vertices_length (bl : MeshBuilder) (p : Vec3) (link : Bool)
    (st : Nat) :
    (bl.add_linked_quad p link st).vertices.length = bl.vertices.length + 1 := by
  simp [MeshBuilder.add_linked_quad]

theorem add_linked_quad_indices_length (bl : MeshBuilder) (p : Vec3) (link : Bool)
    (st : Nat) :
    (bl.add_linked_quad p link st).indices.length =
      bl.indices.length + (if link = true then 6 else 0) := by
  simp only [MeshBuilder.add_linked_quad]
  split <;> simp

theorem foldl_range_vertices_length_mul (f : MeshBuilder → Nat → MeshBuilder) (c : Nat)
    (hf : ∀ b k, (f b k).vertices.length = b.vertices.length + c) :
    ∀ n b, ((List.range n).foldl f b).vertices.length = b.vertices.length + n * c := by
  intro n
  induction n with
  | zero => intro b; simp
  | succ m ih =>
      intro b
      rw [List.range_succ, List.foldl_append, List.foldl_cons, List.foldl_nil, hf, ih,
        Nat.succ_mul]
      omega

theorem foldl_range_indices_const (f : MeshBuilder → Nat → MeshBuilder)
    (hf : ∀ b k, (f b k).indices.length = b.indices.length) :
    ∀ n b, ((List.range n).foldl f b).indices.length = b.indices.length := by
  intro n
  induction n with
  | zero => intro b; simp
  | succ m ih =>
      intro b
      rw [List.range_succ, List.foldl_append, List.foldl_cons, List.foldl_nil, hf, ih]

theorem foldl_range_indices_skip_first (f : MeshBuilder → Nat → MeshBuilder) (c : Nat)
    (hf : ∀ b k, (f b k).indices.length = b.indices.length + (if 0 < k then c else 0)) :
    ∀ n b, ((List.range n).foldl f b).indices.length = b.indices.length + (n - 1) * c := by
  intro n
  induction n with
  | zero => intro b; simp
  | succ m ih =>
      intro b
      rw [List.range_succ, List.foldl_append, List.foldl_cons, List.foldl_nil, hf, ih]
      cases m with
      | zero => simp
      | succ m2 =>
          rw [if_pos (Nat.succ_pos m2), Nat.succ_sub_one, Nat.succ_sub_one, Nat.succ_mul]
          omega

theorem foldl_range_vertices_pred (f : MeshBuilder → Nat → MeshBuilder)
    (P : MeshVertex → Prop) :
    ∀ n, (∀ b k, k < n → ∀ v ∈ (f b k).vertices, v ∈ b.vertices ∨ P v) →
      ∀ b, ∀ v ∈ ((List.range n).foldl f b).vertices, v ∈ b.vertices ∨ P v := by
  intro n
  induction n with
  | zero => intro _ b v hv; simp at hv; exact Or.inl hv
  | succ m ih =>
      intro hf b v hv
      rw [List.range_succ, List.foldl_append, List.foldl_cons, List.foldl_nil] at hv
      rcases hf _ m (Nat.lt_succ_self m) v hv with hv2 | hp
      · exact ih (fun b k hk => hf b k (Nat.lt_succ_of_lt hk)) b v hv2
      · exact Or.inr hp


theorem tdiv_two_ofNat (m : Nat) : ((m : Int)).tdiv 2 = ((m / 2 : Nat) : Int) := by
  rw [Int.ofNat_tdiv]
  norm_num

theorem surfaceRow_vertices_length (heights : Nat → ℚ) (count : Nat) (size : ℚ)
    (half : Int) (b : MeshBuilder) (ki : Nat) :
    (Model.surfaceRow heights count size half b ki).vertices.length =
      b.vertices.length + (2 * half + 1).toNat := by
  simp only [Model.surfaceRow]
  rw [foldl_range_vertices_length_mul _ 1
    (fun b k => add_linked_quad_vertices_length _ _ _ _), Nat.mul_one]

theorem surfaceRow_indices_length (heights : Nat → ℚ) (count : Nat) (size : ℚ)
    (half : Int) (b : MeshBuilder) (ki : Nat) :
    (Model.surfaceRow heights count size half b ki).indices.length =
      b.indices.length +
        (if -half < (ki : Int) - half then ((2 * half + 1).toNat - 1) * 6 else 0) := by
  simp only [Model.surfaceRow]
  by_cases hi : -half < (ki : Int) - half
  · rw [if_pos hi]
    have hstep : ∀ (b2 : MeshBuilder) (k : Nat),
        (b2.add_linked_quad ⟨2 * size * ((k : Int) - half : Int), heights b2.vertices.length,
          2 * size * ((ki : Int) - half : Int)⟩
          (decide (-half < (ki : Int) - half) && decide (-half < (k : Int) - half))
          ((count + 1) % 2 ^ 32)).indices.length =
        b2.indices.length + (if 0 < k then 6 else 0) := by
      intro b2 k
      rw [add_linked_quad_indices_length]
      by_cases hk : 0 < k
      · rw [if_pos hk, if_pos]
        simp only [Bool.and_eq_true, decide_eq_true_eq]
        exact ⟨hi, by omega⟩
      · rw [if_neg hk, if_neg]
        simp only [Bool.and_eq_true, decide_eq_true_eq]
        rintro ⟨-, hB⟩
        omega
    rw [foldl_range_indices_skip_first _ 6 hstep]
  · rw [if_neg hi]
    refine foldl_range_indices_const _ ?_ _ _
    intro b2 k
    rw [add_linked_quad_indices_length, if_neg]
    · omega
    · simp only [Bool.and_eq_true, decide_eq_true_eq]
      rintro ⟨hA, -⟩
      exact hi hA

theorem surfaceBuilder_vertices_length (heights : Nat → ℚ) (count : Nat)
    (size hmax : ℚ) :
    (Model.surfaceBuilder heights count size hmax).vertices.length =
      (2 * ((asI32 count).tdiv 2) + 1).toNat *
        (2 * ((asI32 count).tdiv 2) + 1).toNat := by
  simp only [Model.surfaceBuilder]
  rw [foldl_range_vertices_length_mul _ ((2 * ((asI32 count).tdiv 2) + 1).toNat)
    (fun b k => surfaceRow_vertices_length _ _ _ _ _ _)]
  simp [MeshBuilder.new]

theorem surfaceBuilder_indices_length (heights : Nat → ℚ) (count : Nat)
    (size hmax : ℚ) :
    (Model.surfaceBuilder heights count size hmax).indices.length =
      ((2 * ((asI32 count).tdiv 2) + 1).toNat - 1) *
        (((2 * ((asI32 count).tdiv 2) + 1).toNat - 1) * 6) := by
  simp only [Model.surfaceBuilder]
  have hstep : ∀ (b : MeshBuilder) (ki : Nat),
      (Model.surfaceRow heights count size ((asI32 count).tdiv 2) b ki).indices.length =
        b.indices.length +
          (if 0 < ki then ((2 * ((asI32 count).tdiv 2) + 1).toNat - 1) * 6 else 0) := by
    intro b ki
    rw [surfaceRow_indices_length]
    congr 1
    by_cases hk : 0 < ki
    · rw [if_pos hk, if_pos (by omega)]
    · rw [if_neg hk, if_neg (by omega)]
  rw [foldl_range_indices_skip_first _ _ hstep]
  simp [MeshBuilder.new]


theorem surfaceBuilder_vertices_pred (heights : Nat → ℚ) (count : Nat)
    (size hmax H : ℚ) (hh : ∀ n, 0 ≤ heights n ∧ heights n < H) :
    ∀ v ∈ (Model.surfaceBuilder heights count size hmax).vertices,
      (0 ≤ v.position.y ∧ v.position.y < H) ∧
      ∃ i j : Int, -((asI32 count).tdiv 2) ≤ i ∧ i ≤ (asI32 count).tdiv 2 ∧
        -((asI32 count).tdiv 2) ≤ j ∧ j ≤ (asI32 count).tdiv 2 ∧
        v.position.x = 2 * size * (j : ℚ) ∧ v.position.z = 2 * size * (i : ℚ) := by
  intro v hv
  simp only [Model.surfaceBuilder] at hv
  have hmain := foldl_range_vertices_pred
    (Model.surfaceRow heights count size ((asI32 count).tdiv 2))
    (fun v => (0 ≤ v.position.y ∧ v.position.y < H) ∧
      ∃ i j : Int, -((asI32 count).tdiv 2) ≤ i ∧ i ≤ (asI32 count).tdiv 2 ∧
        -((asI32 count).tdiv 2) ≤ j ∧ j ≤ (asI32 count).tdiv 2 ∧
        v.position.x = 2 * size * (j : ℚ) ∧ v.position.z = 2 * size * (i : ℚ))
    ((2 * ((asI32 count).tdiv 2) + 1).toNat) ?_ (MeshBuilder.new "Quad Grid") v hv
  · rcases hmain with hmem | hp
    · simp [MeshBuilder.new] at hmem
    · exact hp
  · intro b ki hki
    simp only [Model.surfaceRow]
    refine foldl_range_vertices_pred _ _ ((2 * ((asI32 count).tdiv 2) + 1).toNat) ?_ b
    intro b2 k hk v2 hv2
    simp only [MeshBuilder.add_linked_quad, List.mem_append, List.mem_cons,
      List.not_mem_nil, or_false] at hv2
    rcases hv2 with hv2 | rfl
    · exact Or.inl hv2
    · refine Or.inr ⟨⟨(hh _).1, (hh _).2⟩,
        (ki : Int) - (asI32 count).tdiv 2, (k : Int) - (asI32 count).tdiv 2,
        by omega, by omega, by omega, by omega, rfl, rfl⟩


/-- C1 (amended): for an even count `N` with `2 ≤ N < 2^31` (so the
`count as i32` cast does not wrap), positive spacing and height bound, and
a random stream yielding values in `[0, H)` (the embedding of
`rng.gen_range(0.0..height_max)`), `Model::surface` builds a mesh with
exactly `(N+1)²` vertices and `2·N²` triangles, every vertex height in
`[0, H)`, and every vertex on the grid `x = 2·S·j`, `z = 2·S·i` with
`i, j ∈ [-N/2, N/2]`. -/
theorem surface_grid_spec (heights : Nat → ℚ) (N : Nat) (S H : ℚ)
    (hN : 1 ≤ N) (heven : N % 2 = 0) (hN31 : N < 2 ^ 31)
    (hh : ∀ n, 0 ≤ heights n ∧ heights n < H) :
    (Model.surfaceBuilder heights N S H).vertices.length = (N + 1) * (N + 1) ∧
    (Model.surfaceBuilder heights N S H).triangles.length = 2 * (N * N) ∧
    ∀ v ∈ (Model.surfaceBuilder heights N S H).vertices,
      (0 ≤ v.position.y ∧ v.position.y < H) ∧
      ∃ i j : Int, -((N : Int) / 2) ≤ i ∧ i ≤ (N : Int) / 2 ∧
        -((N : Int) / 2) ≤ j ∧ j ≤ (N : Int) / 2 ∧
        v.position.x = 2 * S * (j : ℚ) ∧ v.position.z = 2 * S * (i : ℚ) := by
  have hcast : asI32 N = (N : Int) := by
    simp only [asI32]
    rw [if_pos hN31]
  have hhalf : (asI32 N).tdiv 2 = ((N / 2 : Nat) : Int) := by
    rw [hcast, tdiv_two_ofNat]
  have hn : (2 * ((asI32 N).tdiv 2) + 1).toNat = N + 1 := by
    rw [hhalf]
    omega
  have hc : (asI32 N).tdiv 2 = (N : Int) / 2 := by
    rw [hhalf]
    omega
  refine ⟨?_, ?_, ?_⟩
  · rw [surfaceBuilder_vertices_length, hn]
  · rw [triangles_length, surfaceBuilder_indices_length, hn]
    have h3 : (N + 1 - 1) * ((N + 1 - 1) * 6) = 6 * (N * N) := by
      simp
      ring
    rw [h3]
    generalize N * N = m
    omega
  · intro v hv
    obtain ⟨hy, i, j, h1, h2, h3, h4, h5, h6⟩ :=
      surfaceBuilder_vertices_pred heights N S H H hh v hv
    rw [hc] at h1 h2 h3 h4
    exact ⟨hy, i, j, h1, h2, h3, h4, h5, h6⟩

/-- C1 (counterexample): the claim fails at both ends of the count range.
At the odd count `N = 1` (with `S = H = 1` and an in-range height stream)
the builder emits a single vertex and no triangles — not the `(1+1)² = 4`
vertices the claim predicts — because `half_count = 1/2 = 0` makes both
loops run once.  And at the even count `N = 2^31` the `count as i32` cast
wraps negative, both loops are empty, and the mesh has 0 vertices, not
`(2^31+1)²`. -/
theorem surface_count_one_counterexample :
    (∀ n : Nat, 0 ≤ (fun _ : Nat => (0 : ℚ)) n ∧ (fun _ : Nat => (0 : ℚ)) n < 1) ∧
    (Model.surfaceBuilder (fun _ : Nat => (0 : ℚ)) 1 1 1).vertices.length = 1 ∧
    (1 : Nat) ≠ (1 + 1) * (1 + 1) ∧
    (Model.surfaceBuilder (fun _ : Nat => (0 : ℚ)) (2 ^ 31) 1 1).vertices.length = 0 ∧
    (0 : Nat) ≠ (2 ^ 31 + 1) * (2 ^ 31 + 1) := by
  refine ⟨fun n => ⟨le_refl 0, one_pos⟩, by decide, by decide, by decide, by decide⟩

/-- C1 (witness): the amended surface claim instantiated at `N = 2`,
`S = H = 1`, and the all-zero height stream. -/
theorem surface_grid_spec_witness :
    (1 ≤ 2 ∧ 2 % 2 = 0 ∧ 2 < 2 ^ 31 ∧
      (∀ n : Nat, 0 ≤ (fun _ : Nat => (0 : ℚ)) n ∧ (fun _ : Nat => (0 : ℚ)) n < 1)) ∧
    ((Model.surfaceBuilder (fun _ : Nat => (0 : ℚ)) 2 1 1).vertices.length = (2 + 1) * (2 + 1) ∧
     (Model.surfaceBuilder (fun _ : Nat => (0 : ℚ)) 2 1 1).triangles.length = 2 * (2 * 2) ∧
     ∀ v ∈ (Model.surfaceBuilder (fun _ : Nat => (0 : ℚ)) 2 1 1).vertices,
       (0 ≤ v.position.y ∧ v.position.y < 1) ∧
       ∃ i j : Int, -((2 : Int) / 2) ≤ i ∧ i ≤ (2 : Int) / 2 ∧
         -((2 : Int) / 2) ≤ j ∧ j ≤ (2 : Int) / 2 ∧
         v.position.x = 2 * 1 * (j : ℚ) ∧ v.position.z = 2 * 1 * (i : ℚ)) :=
  ⟨⟨by decide, by decide, by decide, fun n => ⟨le_refl 0, one_pos⟩⟩,
   surface_grid_spec (fun _ => 0) 2 1 1 (by decide) (by decide) (by decide)
     (fun n => ⟨le_refl 0, one_pos⟩)⟩

end SurfaceClaim


section CameraClaim

/-- Modelled from the spec: the orbit camera's orientation state (`OrbitCamera`
of `camera.rs`, which is not under `src/`): yaw and pitch, in degrees. -/
structure OrbitCamera where
  yaw : ℚ
  pitch : ℚ
deriving DecidableEq, Repr

/-- Modelled from the spec: the controller's accumulated input deltas
(`OrbitCameraController` of `camera.rs`, which is not under `src/`). -/
structure OrbitCameraController where
  rotate_horizontal : ℚ
  rotate_vertical : ℚ
  scroll : ℚ
  sensitivity : ℚ
deriving DecidableEq, Repr

/-- Modelled from the spec: `update_camera(camera, dt)` applies the
accumulated rotation deltas, scaled by sensitivity and `dt`, to the camera
orientation, clamps pitch to `[-89°, 89°]`, then resets the one-shot deltas
(mouse rotation, scroll).  The eye translation and scroll zoom act on
fields (eye position, orbit distance) that pitch does not depend on and are
not modelled.  `camera.rs` is not under `src/`. -/
def OrbitCameraController.update_camera (c : OrbitCameraController)
    (camera : OrbitCamera) (dt : ℚ) : OrbitCamera × OrbitCameraController :=
  let yaw := camera.yaw + c.rotate_horizontal * c.sensitivity * dt
  let pitch_raw := camera.pitch + c.rotate_vertical * c.sensitivity * dt
  let pitch := min 89 (max (-89) pitch_raw)
  (⟨yaw, pitch⟩, { c with rotate_horizontal := 0, rotate_vertical := 0, scroll := 0 })

/-- C5: after every `update_camera` call — hence after each step of any
sequence of per-frame updates, however large the rotation input — the
camera's pitch lies in `[-89°, 89°]`. -/
theorem camera_pitch_clamped (c : OrbitCameraController) (camera : OrbitCamera)
    (dt : ℚ) :
    -89 ≤ (c.update_camera camera dt).1.pitch ∧
    (c.update_camera camera dt).1.pitch ≤ 89 :=
  ⟨le_min (by norm_num) (le_max_left _ _), min_le_left _ _⟩

end CameraClaim

section ResizeClaim

/-- Modelled from the spec: `Projection` — aspect ratio, field of view,
near/far planes (`projection.rs` is not under `src/`). -/
structure Projection where
  aspect : ℚ
  fovy : ℚ
  znear : ℚ
  zfar : ℚ
deriving DecidableEq, Repr

/-- Modelled from the spec: on resize the projection recomputes its aspect
ratio as `width / height` exactly (`projection.rs` is not under `src/`). -/
def Projection.resize (p : Projection) (width height : Nat) : Projection :=
  { p with aspect := (width : ℚ) / (height : ℚ) }

/-- `winit::dpi::PhysicalSize<u32>`. -/
structure PhysicalSize where
  width : Nat
  height : Nat
deriving DecidableEq, Repr

/-- `wgpu::SurfaceConfiguration`, restricted to its resize-relevant fields. -/
structure SurfaceConfiguration where
  width : Nat
  height : Nat
deriving DecidableEq, Repr

/-- `State` from `src/state.rs`, restricted to the fields `State::resize`
touches (the GPU surface, renderer and buffers are dropped). -/
structure State where
  size : PhysicalSize
  config : SurfaceConfiguration
  projection : Projection
deriving DecidableEq, Repr

/-- `State::resize` from `src/state.rs`: guarded on both dimensions being
positive; updates the stored size, the surface configuration and the
projection aspect ratio (the `surface.configure` and `renderer.resize`
calls act on dropped GPU objects). -/
def State.resize (s : State) (new_size : PhysicalSize) : State :=
  if 0 < new_size.width ∧ 0 < new_size.height then
    { s with
      size := new_size,
      config := { s.config with width := new_size.width, height := new_size.height },
      projection := s.projection.resize new_size.width new_size.height }
  else s

/-- C6: resizing to a size with zero width or height leaves the state
unchanged; resizing to positive dimensions stores the new size in `size`
and `config` and sets the projection aspect ratio to exactly
`width / height`, leaving fov and near/far planes untouched. -/
theorem resize_spec (s : State) (ns : PhysicalSize) :
    ((ns.width = 0 ∨ ns.height = 0) → s.resize ns = s) ∧
    (0 < ns.width → 0 < ns.height →
      (s.resize ns).size = ns ∧
      (s.resize ns).config.width = ns.width ∧
      (s.resize ns).config.height = ns.height ∧
      (s.resize ns).projection.aspect = (ns.width : ℚ) / (ns.height : ℚ) ∧
      (s.resize ns).projection.fovy = s.projection.fovy ∧
      (s.resize ns).projection.znear = s.projection.znear ∧
      (s.resize ns).projection.zfar = s.projection.zfar) := by
  constructor
  · intro h
    rw [State.resize, if_neg]
    rintro ⟨h1, h2⟩
    rcases h with h | h <;> omega
  · intro h1 h2
    rw [State.resize, if_pos ⟨h1, h2⟩]
    exact ⟨rfl, rfl, rfl, rfl, rfl, rfl, rfl⟩

/-- C6 (witness): a concrete state is untouched by a zero-width resize and
gets aspect ratio `4 / 2` from a 4 × 2 resize. -/
theorem resize_spec_witness :
    State.resize ⟨⟨800, 600⟩, ⟨800, 600⟩, ⟨4 / 3, 45, 1 / 10, 100⟩⟩ ⟨0, 5⟩ =
      ⟨⟨800, 600⟩, ⟨800, 600⟩, ⟨4 / 3, 45, 1 / 10, 100⟩⟩ ∧
    (State.resize ⟨⟨800, 600⟩, ⟨800, 600⟩, ⟨4 / 3, 45, 1 / 10, 100⟩⟩
        ⟨4, 2⟩).projection.aspect = ((4 : Nat) : ℚ) / ((2 : Nat) : ℚ) :=
  ⟨(resize_spec _ _).1 (Or.inl rfl),
   ((resize_spec _ _).2 (by decide) (by decide)).2.2.2.1⟩

end ResizeClaim

section EventLoopClaim

/-- `wgpu::SurfaceError`. -/
inductive SurfaceError where
  | Timeout
  | Outdated
  | Lost
  | OutOfMemory
deriving DecidableEq, Repr

/-- `winit::event_loop::ControlFlow`, restricted to the two values `main`
assigns. -/
inductive ControlFlow where
  | Poll
  | Exit
deriving DecidableEq, Repr

/-- The `Event::RedrawRequested` arm of the event loop in `src/main.rs`
(lines 118-130): given the result of `state.render()`, the resulting state,
the control flow set for the loop, and the error logged by `eprintln!`, if
any. -/
def redraw_handle (s : State) (r : Except SurfaceError Unit) :
    State × ControlFlow × Option SurfaceError :=
  match r with
  | Except.ok _ => (s, ControlFlow.Poll, none)
  | Except.error SurfaceError.Lost => (s.resize s.size, ControlFlow.Poll, none)
  | Except.error SurfaceError.OutOfMemory => (s, ControlFlow.Exit, none)
  | Except.error e => (s, ControlFlow.Poll, some e)

/-- C7: the render-error classes are handled distinctly: a lost surface
triggers `resize(state.size)` and the loop keeps polling; out-of-memory
exits the event loop; any other presentation error is logged and the loop
keeps polling with the state untouched. -/
theorem render_error_handling (s : State) :
    redraw_handle s (Except.error SurfaceError.Lost) =
      (s.resize s.size, ControlFlow.Poll, none) ∧
    redraw_handle s (Except.error SurfaceError.OutOfMemory) =
      (s, ControlFlow.Exit, none) ∧
    ∀ e : SurfaceError, e ≠ SurfaceError.Lost → e ≠ SurfaceError.OutOfMemory →
      redraw_handle s (Except.error e) = (s, ControlFlow.Poll, some e) := by
  refine ⟨rfl, rfl, ?_⟩
  intro e h1 h2
  cases e
  · rfl
  · rfl
  · exact absurd rfl h1
  · exact absurd rfl h2

/-- C7 (witness): the other-error clause instantiated at a concrete state
with a `Timeout` error. -/
theorem render_error_handling_witness :
    (SurfaceError.Timeout ≠ SurfaceError.Lost ∧
     SurfaceError.Timeout ≠ SurfaceError.OutOfMemory) ∧
    redraw_handle ⟨⟨800, 600⟩, ⟨800, 600⟩, ⟨4 / 3, 45, 1 / 10, 100⟩⟩
      (Except.error SurfaceError.Timeout) =
      (⟨⟨800, 600⟩, ⟨800, 600⟩, ⟨4 / 3, 45, 1 / 10, 100⟩⟩, ControlFlow.Poll,
       some SurfaceError.Timeout) :=
  ⟨⟨by decide, by decide⟩,
   (render_error_handling _).2.2 SurfaceError.Timeout (by decide) (by decide)⟩

end EventLoopClaim

section CliClaim

/-- The clap-derived `Cli` of `src/main.rs` (lines 30-55). -/
structure Cli where
  count : Nat
  cube : Bool
  file : Bool
  height : ℚ
  house : Bool
  length : ℚ
  max : ℚ
  plane : Bool
  size : ℚ
  surface : Bool
  width : ℚ
deriving DecidableEq, Repr

/-- The clap default values of `Cli` (`default_value_t` attributes; boolean
switches default to false). -/
def Cli.defaults : Cli :=
  { count := 8, cube := false, file := false, height := 1, house := false,
    length := 1, max := 1 / 2, plane := false, size := 1, surface := false,
    width := 1 }

/-- One model-producing action of `main`: adding a primitive, prompting for
a file, or adding a house or surface with the CLI's numeric parameters. -/
inductive SceneAddition where
  | addPrimitive (p : ModelPrimitive) (size : ℚ)
  | promptFile
  | addHouse (width length height : ℚ)
  | addSurface (count : Nat) (size max : ℚ)
deriving DecidableEq, Repr

/-- The model-adding `if` chain of `main` in `src/main.rs` (lines 66-80):
each boolean flag that is set contributes its own scene addition, in
source order. -/
def Cli.scene_additions (cli : Cli) : List SceneAddition :=
  (if cli.cube then [SceneAddition.addPrimitive ModelPrimitive.Cube cli.size] else []) ++
  (if cli.file then [SceneAddition.promptFile] else []) ++
  (if cli.house then [SceneAddition.addHouse cli.width cli.length cli.height] else []) ++
  (if cli.plane then [SceneAddition.addPrimitive ModelPrimitive.Plane cli.size] else []) ++
  (if cli.surface then [SceneAddition.addSurface cli.count cli.size cli.max] else [])

/-- C8: the numeric defaults are size = width = length = height = 1.0,
count = 8, max = 0.5, and the boolean model flags compose: every set flag
contributes exactly one scene addition of its own (all five may fire in a
single run). -/
theorem cli_defaults_and_composability :
    (Cli.defaults.size = 1 ∧ Cli.defaults.width = 1 ∧ Cli.defaults.length = 1 ∧
     Cli.defaults.height = 1 ∧ Cli.defaults.count = 8 ∧ Cli.defaults.max = 1 / 2) ∧
    ∀ cli : Cli,
      cli.scene_additions.length =
        (if cli.cube then 1 else 0) + (if cli.file then 1 else 0) +
        (if cli.house then 1 else 0) + (if cli.plane then 1 else 0) +
        (if cli.surface then 1 else 0) ∧
      (cli.cube = true ↔
        SceneAddition.addPrimitive ModelPrimitive.Cube cli.size ∈ cli.scene_additions) ∧
      (cli.file = true ↔ SceneAddition.promptFile ∈ cli.scene_additions) ∧
      (cli.house = true ↔
        SceneAddition.addHouse cli.width cli.length cli.height ∈ cli.scene_additions) ∧
      (cli.plane = true ↔
        SceneAddition.addPrimitive ModelPrimitive.Plane cli.size ∈ cli.scene_additions) ∧
      (cli.surface = true ↔
        SceneAddition.addSurface cli.count cli.size cli.max ∈ cli.scene_additions) := by
  refine ⟨⟨rfl, rfl, rfl, rfl, rfl, rfl⟩, ?_⟩
  intro cli
  obtain ⟨count, cube, file, height, house, length, max, plane, size, surface, width⟩ := cli
  cases cube <;> cases file <;> cases house <;> cases plane <;> cases surface <;>
    simp [Cli.scene_additions]

end CliClaim

section LoadClaim

/-- The relevant fields of a `tobj::Mesh` (flattened position and normal
component arrays, triangulated indices, optional material id). -/
structure ObjMesh where
  positions : List ℚ
  normals : List ℚ
  indices : List Nat
  material_id : Option Nat
deriving DecidableEq, Repr

/-- A `tobj::Model`: a named sub-mesh of the loaded file. -/
structure ObjModel where
  name : String
  mesh : ObjMesh
deriving DecidableEq, Repr

/-- `MODEL_COLOR` from `src/model.rs`: `[1.0, 0.1, 0.1, 1.0]`. -/
def MODEL_COLOR : ℚ × ℚ × ℚ × ℚ := (1, 1 / 10, 1 / 10, 1)

/-- `MeshVertex` as constructed by `Model::load` (position, normal, fixed
placeholder color). -/
structure LoadedVertex where
  position : Vec3
  normal : Vec3
  color : ℚ × ℚ × ℚ × ℚ
deriving DecidableEq, Repr

/-- The `Mesh` value `Model::load` constructs per sub-mesh (buffers kept as
the lists they are built from). -/
structure LoadedMesh where
  name : String
  vertices : List LoadedVertex
  indices : List Nat
  num_elements : Nat
  material : Nat
deriving DecidableEq, Repr

/-- `Model::load` from `src/model.rs` (lines 105-156), with the external
`tobj::load_obj` call abstracted as the already-parsed input `loaded`
(an `Err` from the loader is propagated by `?`).  The outer `Option` models
Rust panics: for each sub-mesh the code indexes `positions` and `normals`
at `3i`, `3i+1`, `3i+2` for every `i < positions.len() / 3` with no bounds
guard, so an out-of-range access — a panic in Rust — is `none` here,
distinct from `some (Except.error _)`, the `Err` return. -/
def Model.load (loaded : Except String (List ObjModel)) :
    Option (Except String (List LoadedMesh)) :=
  match loaded with
  | Except.error e => some (Except.error e)
  | Except.ok obj_models =>
      (obj_models.mapM (fun (m : ObjModel) => do
        let vertices ← (List.range (m.mesh.positions.length / 3)).mapM (fun (i : Nat) => do
          let px ← m.mesh.positions[i * 3]?
          let py ← m.mesh.positions[i * 3 + 1]?
          let pz ← m.mesh.positions[i * 3 + 2]?
          let nx ← m.mesh.normals[i * 3]?
          let ny ← m.mesh.normals[i * 3 + 1]?
          let nz ← m.mesh.normals[i * 3 + 2]?
          pure (⟨⟨px, py, pz⟩, ⟨nx, ny, nz⟩, MODEL_COLOR⟩ : LoadedVertex))
        pure (⟨m.name, vertices, m.mesh.indices, m.mesh.indices.length,
          m.mesh.material_id.getD 0⟩ : LoadedMesh))).map Except.ok

/-- An `Option`-monad `mapM` fails whenever the function fails on any
element of the list. -/
theorem mapM_option_eq_none {α β : Type} {f : α → Option β} {l : List α} {a : α}
    (ha : a ∈ l) (hf : f a = none) : l.mapM f = none := by
  induction l with
  | nil => cases ha
  | cons b t ih =>
      rcases List.mem_cons.mp ha with rfl | ha2
      · simp only [List.mapM_cons, hf]
        rfl
      · cases hfb : f b
        · simp only [List.mapM_cons, hfb]
          rfl
        · simp only [List.mapM_cons, hfb, ih ha2]
          rfl

/-- C9: a triangulated sub-mesh supplying fewer normal components than the
`3 * (positions.len() / 3)` the vertex loop reads (e.g. an OBJ with no
normals at all) makes `Model::load` panic from an out-of-bounds normals
index (`none`), rather than return an `Err`. -/
theorem load_missing_normals_panics (m : ObjModel)
    (hpos : 3 ≤ m.mesh.positions.length)
    (hnorm : m.mesh.normals.length < 3 * (m.mesh.positions.length / 3)) :
    Model.load (Except.ok [m]) = none := by
  have hn1 : 1 ≤ m.mesh.positions.length / 3 := by omega
  set n := m.mesh.positions.length / 3 with hn
  have hmemr : n - 1 ∈ List.range n := by
    rw [List.mem_range]; omega
  have hlast : m.mesh.normals[(n - 1) * 3 + 2]? = none := by
    rw [List.getElem?_eq_none]
    omega
  have hinner : (List.range n).mapM (fun (i : Nat) => do
      let px ← m.mesh.positions[i * 3]?
      let py ← m.mesh.positions[i * 3 + 1]?
      let pz ← m.mesh.positions[i * 3 + 2]?
      let nx ← m.mesh.normals[i * 3]?
      let ny ← m.mesh.normals[i * 3 + 1]?
      let nz ← m.mesh.normals[i * 3 + 2]?
      pure (⟨⟨px, py, pz⟩, ⟨nx, ny, nz⟩, MODEL_COLOR⟩ : LoadedVertex)) = none := by
    refine mapM_option_eq_none hmemr ?_
    have hp0 : (n - 1) * 3 < m.mesh.positions.length := by omega
    have hp1 : (n - 1) * 3 + 1 < m.mesh.positions.length := by omega
    have hp2 : (n - 1) * 3 + 2 < m.mesh.positions.length := by omega
    rw [List.getElem?_eq_getElem hp0, List.getElem?_eq_getElem hp1,
      List.getElem?_eq_getElem hp2]
    cases hnx : m.mesh.normals[(n - 1) * 3]?
    · simp [hnx]
    · cases hny : m.mesh.normals[(n - 1) * 3 + 1]?
      · simp [hnx, hny]
      · simp [hnx, hny, hlast]
  simp only [Model.load, List.mapM_cons, List.mapM_nil]
  rw [← hn, hinner]
  rfl

/-- C9 (witness): one triangle's worth of positions and an empty normals
array panics. -/
theorem load_missing_normals_panics_witness :
    (3 ≤ (⟨"pumpkin", ⟨[0, 0, 0], [], [], none⟩⟩ : ObjModel).mesh.positions.length ∧
     (⟨"pumpkin", ⟨[0, 0, 0], [], [], none⟩⟩ : ObjModel).mesh.normals.length <
       3 * ((⟨"pumpkin", ⟨[0, 0, 0], [], [], none⟩⟩ : ObjModel).mesh.positions.length / 3)) ∧
    Model.load (Except.ok [⟨"pumpkin", ⟨[0, 0, 0], [], [], none⟩⟩]) = none :=
  ⟨⟨by decide, by decide⟩,
   load_missing_normals_panics ⟨"pumpkin", ⟨[0, 0, 0], [], [], none⟩⟩
     (by decide) (by decide)⟩


end LoadClaim

end RustyRenderer
